import Mathlib

/-!
Shallow embedding of the network-configuration generator and the EFI
boot-source resolver of the rdi-installer repository (C sources
`src/rdii-networkd.c`, `src/ip.c`, `src/ifcfg.c`, `lib/efivars.c`), together
with proofs about the spec's claims.

Conventions of the embedding:
* C `char *` values are `Option String` (`none` = NULL pointer).
* machine integers are `Nat`/`Int` with explicit `% 2^w` where wrap-around
  matters; errno returns are `Int` (negative, as in the C sources).
* fallible C functions return an explicit result type; a NULL-pointer
  dereference or a read of uninitialized memory in the C code is modelled
  by a distinguished `crash` constructor, never silently papered over.
-/

set_option maxRecDepth 2000

namespace RdiInstaller

/-- Result of a C function returning a sign-inverted errno: `ok` (returned 0
with the given payload), `err e` (returned the negative value `e`), or
`crash` (the C code performs undefined behaviour on this input: NULL
dereference or use of an uninitialized variable). -/
inductive PRes (α : Type) where
  | ok (val : α)
  | err (e : Int)
  | crash
deriving DecidableEq, Repr

/-- C `isempty(s)`: NULL or the empty string. -/
def cIsEmpty : Option String → Bool
  | none => true
  | some s => s = ""

/-- C `startswith` (kernel-reducible form on the character list). -/
def cStartsWith (s pre : String) : Bool := pre.data.isPrefixOf s.data

/-- Pointer advance `s + n`. -/
def cDrop (n : Nat) (s : String) : String := (s.data.drop n).asString

/-! ## inet_pton, AF_INET (glibc `inet_pton4`)

Faithful model of glibc's dotted-quad parser: at most 4 octets, each a
decimal number `0..255`, no leading zeros, separated by single dots.
On success the 32-bit value is returned in host order (as `ntohl` yields
it in `netmask_to_cidr`): first octet is the most significant byte. -/

/-- Value of the four octets read in network order, as `ntohl` produces. -/
def octetsVal : List Nat → Nat
  | [a, b, c, d] => a * 16777216 + b * 65536 + c * 256 + d
  | _ => 0

/-- Main loop of glibc `inet_pton4`: `done` are the completed octets, `cur`
the value of the octet being read, `sawD` whether a digit of the current
octet has been seen. -/
def pton4Loop : List Char → List Nat → Nat → Bool → Option Nat
  | [], done, cur, sawD =>
      if done.length + sawD.toNat < 4 then none
      else some (octetsVal (done ++ [cur]))
  | c :: rest, done, cur, sawD =>
      if c.isDigit then
        let d := c.toNat - 48
        let newv := cur * 10 + d
        if sawD && decide (cur = 0) then none
        else if 255 < newv then none
        else if !sawD && decide (4 < done.length + 1) then none
        else pton4Loop rest done newv true
      else if c = '.' && sawD then
        if done.length + 1 = 4 then none
        else pton4Loop rest (done ++ [cur]) 0 false
      else none

/-- glibc `inet_pton(AF_INET, src, &addr)` followed by `ntohl`. -/
def inet_pton4 (s : String) : Option Nat :=
  pton4Loop s.data [] 0 false

/-! ## netmask_to_cidr (src/ip.c)

The C function shifts a 32-bit mask left bit by bit, counting leading
ones; once a zero bit is reached the remainder must be zero. -/

/-- One C `for` loop of `netmask_to_cidr`, on a 32-bit `mask` (kept `< 2^32`
by the `% 2^32` after each shift) with `bits` ones counted so far; `fuel`
is the number of loop iterations left (32 at entry). Returns `none` for
the non-contiguous `return -EINVAL` exit. -/
def cidrLoop : Nat → Nat → Nat → Option Nat
  | 0, _, bits => some bits
  | fuel + 1, mask, bits =>
      if mask &&& 2147483648 ≠ 0 then
        cidrLoop fuel (mask * 2 % 4294967296) (bits + 1)
      else
        if mask ≠ 0 then none else some bits

/-- `netmask_to_cidr` of src/ip.c: parse as IPv4 with `inet_pton`, then count
contiguous leading one bits; `.err (-22)` is `-EINVAL`. -/
def netmask_to_cidr (s : String) : PRes Nat :=
  match inet_pton4 s with
  | none => .err (-22)
  | some mask =>
      match cidrLoop 32 mask 0 with
      | none => .err (-22)
      | some bits => .ok bits

/-- The 32-bit mask whose binary form is `1^k 0^(32-k)`. -/
def maskOfPrefixLen (k : Nat) : Nat := (2 ^ k - 1) * 2 ^ (32 - k)

lemma maskOfPrefixLen_eq (k : Nat) (hk : k ≤ 32) :
    maskOfPrefixLen k = 2 ^ 32 - 2 ^ (32 - k) := by
  unfold maskOfPrefixLen
  rw [Nat.sub_mul, one_mul, ← pow_add]
  congr 2
  omega

lemma octetsVal_lt (l : List Nat) (hl : ∀ x ∈ l, x ≤ 255) : octetsVal l < 2 ^ 32 := by
  rcases l with _ | ⟨a, _ | ⟨b, _ | ⟨c, _ | ⟨d, _ | ⟨e, l⟩⟩⟩⟩⟩ <;> simp only [octetsVal] <;>
    try norm_num
  have ha := hl a (by simp)
  have hb := hl b (by simp)
  have hc := hl c (by simp)
  have hd := hl d (by simp)
  omega

lemma pton4Loop_lt (cs : List Char) : ∀ (done : List Nat) (cur : Nat) (sawD : Bool)
    (v : Nat), (∀ x ∈ done, x ≤ 255) → cur ≤ 255 →
    pton4Loop cs done cur sawD = some v → v < 2 ^ 32 := by
  induction cs with
  | nil =>
      intro done cur sawD v hdone hcur h
      simp only [pton4Loop] at h
      split at h
      · exact Option.noConfusion h
      · injection h with h
        subst h
        refine octetsVal_lt _ ?_
        intro x hx
        rcases List.mem_append.mp hx with h1 | h2
        · exact hdone x h1
        · simp at h2; omega
  | cons c rest ih =>
      intro done cur sawD v hdone hcur h
      simp only [pton4Loop] at h
      split at h
      · split at h
        · exact Option.noConfusion h
        · split at h
          · exact Option.noConfusion h
          · split at h
            · exact Option.noConfusion h
            · exact ih done _ true v hdone (by rename_i h255 _; omega) h
      · split at h
        · split at h
          · exact Option.noConfusion h
          · refine ih (done ++ [cur]) 0 false v ?_ (by omega) h
            intro x hx
            rcases List.mem_append.mp hx with h1 | h2
            · exact hdone x h1
            · simp at h2; omega
        · exact Option.noConfusion h

lemma inet_pton4_lt (s : String) (v : Nat) (h : inet_pton4 s = some v) : v < 2 ^ 32 :=
  pton4Loop_lt s.data [] 0 false v (by simp) (by omega) h

/-- The C test `(mask & 0x80000000) != 0` decides the top bit. -/
lemma msb_test (mask : Nat) (h : mask < 2 ^ 32) :
    (mask &&& 2147483648 ≠ 0) ↔ 2 ^ 31 ≤ mask := by
  have h31 : (2147483648 : Nat) = 2 ^ 31 := by norm_num
  have e32 : (2 : Nat) ^ 32 = 4294967296 := by norm_num
  rw [e32] at h
  rw [h31, Nat.and_two_pow, Nat.testBit_to_div_mod]
  by_cases hd : mask / 2 ^ 31 % 2 = 1
  · rw [decide_eq_true hd]
    refine iff_of_true (by norm_num) ?_
    rw [h31.symm] at hd ⊢
    omega
  · rw [decide_eq_false hd]
    refine iff_of_false (by norm_num) ?_
    rw [h31.symm] at hd ⊢
    omega

/-- Characterization of the bit-counting loop of `netmask_to_cidr`: starting
with `fuel` iterations left and the low `32 - fuel` bits of `mask` already
shifted out (zero), the loop accepts exactly the contiguous masks. -/
lemma cidrLoop_some_iff (fuel : Nat) : ∀ (mask bits k : Nat), fuel ≤ 32 →
    mask < 2 ^ 32 → mask % 2 ^ (32 - fuel) = 0 →
    (cidrLoop fuel mask bits = some k ↔
      ∃ j, j ≤ fuel ∧ k = bits + j ∧ mask = 2 ^ 32 - 2 ^ (32 - j)) := by
  induction fuel with
  | zero =>
      intro mask bits k _ hlt hmod
      have h0 : (32 : Nat) - 0 = 32 := rfl
      rw [h0] at hmod
      have hm : mask = 0 := by rwa [Nat.mod_eq_of_lt hlt] at hmod
      subst hm
      simp only [cidrLoop, Option.some.injEq]
      constructor
      · intro h; exact ⟨0, le_refl 0, by omega, by norm_num⟩
      · rintro ⟨j, hj, hk, _⟩
        omega
  | succ fuel ih =>
      intro mask bits k hfuel hlt hmod
      have hfuel' : fuel ≤ 32 := by omega
      have e31 : (2 : Nat) ^ 31 = 2147483648 := by norm_num
      have e32 : (2 : Nat) ^ 32 = 4294967296 := by norm_num
      simp only [cidrLoop]
      by_cases hmsb : mask &&& 2147483648 ≠ 0
      · -- top bit set: count it and shift left
        have hge : 2 ^ 31 ≤ mask := (msb_test mask hlt).mp hmsb
        rw [if_pos hmsb]
        have hshift : mask * 2 % 4294967296 = mask * 2 - 2 ^ 32 := by
          have h2 : 2 ^ 32 ≤ mask * 2 := by omega
          rw [e32.symm, Nat.mod_eq_sub_mod h2, Nat.mod_eq_of_lt (by omega)]
        rw [hshift]
        -- the shifted mask still satisfies the loop invariant
        have hstep : (2 : Nat) ^ (32 - fuel) = 2 ^ (32 - (fuel + 1)) * 2 := by
          rw [← pow_succ]
          congr 1
          omega
        have hdvd : (2 : Nat) ^ (32 - fuel) ∣ mask * 2 - 2 ^ 32 := by
          apply Nat.dvd_sub'
          · rcases Nat.dvd_of_mod_eq_zero hmod with ⟨c, hc⟩
            refine ⟨c, ?_⟩
            rw [hc, hstep]
            ring
          · exact pow_dvd_pow 2 (by omega)
        have hmod' : (mask * 2 - 2 ^ 32) % 2 ^ (32 - fuel) = 0 := by
          rcases hdvd with ⟨c, hc⟩
          rw [hc]
          exact Nat.mul_mod_right _ _
        have hlt' : mask * 2 - 2 ^ 32 < 2 ^ 32 := by omega
        rw [ih (mask * 2 - 2 ^ 32) (bits + 1) k hfuel' hlt' hmod']
        constructor
        · rintro ⟨j, hj, hk, hmask⟩
          refine ⟨j + 1, by omega, by omega, ?_⟩
          have hp2 : (2 : Nat) ^ (32 - (j + 1)) ≤ 2 ^ 31 :=
            Nat.pow_le_pow_right (by norm_num) (by omega)
          have hexp : (2 : Nat) ^ (32 - j) = 2 ^ (32 - (j + 1)) * 2 := by
            have he : 32 - j = (32 - (j + 1)) + 1 := by omega
            rw [he, pow_succ]
          omega
        · rintro ⟨j, hj, hk, hmask⟩
          have hj1 : 1 ≤ j := by
            by_contra hj0
            have hj00 : j = 0 := by omega
            subst hj00
            rw [show (32 : Nat) - 0 = 32 from rfl] at hmask
            omega
          refine ⟨j - 1, by omega, by omega, ?_⟩
          have hexp : (2 : Nat) ^ (32 - (j - 1)) = 2 ^ (32 - j) * 2 := by
            have he : 32 - (j - 1) = (32 - j) + 1 := by omega
            rw [he, pow_succ]
          have hp3 : (2 : Nat) ^ (32 - j) ≤ 2 ^ 32 :=
            Nat.pow_le_pow_right (by norm_num) (by omega)
          omega
      · -- top bit clear: accept iff the rest is zero
        have hless : mask < 2 ^ 31 := by
          by_contra hge
          push_neg at hge
          exact hmsb ((msb_test mask hlt).mpr hge)
        rw [if_neg hmsb]
        by_cases hz : mask = 0
        · subst hz
          rw [if_neg (by simp)]
          simp only [Option.some.injEq]
          constructor
          · intro h
            exact ⟨0, by omega, by omega, by norm_num⟩
          · rintro ⟨j, hj, hk, hmask⟩
            have hj0 : j = 0 := by
              by_contra hj1
              have hp : (2 : Nat) ^ (32 - j) ≤ 2 ^ 31 :=
                Nat.pow_le_pow_right (by norm_num) (by omega)
              omega
            omega
        · rw [if_pos hz]
          constructor
          · intro h; exact Option.noConfusion h
          · rintro ⟨j, hj, hk, hmask⟩
            exfalso
            rcases Nat.eq_zero_or_pos j with hj0 | hj1
            · subst hj0
              rw [show (32 : Nat) - 0 = 32 from rfl] at hmask
              omega
            · have hp : (2 : Nat) ^ (32 - j) ≤ 2 ^ 31 :=
                Nat.pow_le_pow_right (by norm_num) (by omega)
              omega


/-- C4: a dotted-quad string in the netmask position of the long-form `ip=`
directive is accepted by `netmask_to_cidr` if and only if `inet_pton`
parses it and its 32-bit value is `1^k 0^(32-k)` for some `0 ≤ k ≤ 32`, and
the CIDR prefix stored into `cfg->netmask` on acceptance is exactly `k`. -/
theorem netmask_dotted_quad_accept_iff (s : String) (hdot : '.' ∈ s.data) :
    (∀ k, netmask_to_cidr s = PRes.ok k →
        k ≤ 32 ∧ inet_pton4 s = some (maskOfPrefixLen k)) ∧
    ((∃ k, k ≤ 32 ∧ inet_pton4 s = some (maskOfPrefixLen k)) →
      ∃ k, netmask_to_cidr s = PRes.ok k) := by
  cases hp : inet_pton4 s with
  | none =>
      constructor
      · intro k hk
        simp only [netmask_to_cidr, hp] at hk
        exact PRes.noConfusion hk
      · rintro ⟨k, _, hpk⟩
        exact Option.noConfusion hpk
  | some mask =>
      have hm32 : mask < 2 ^ 32 := inet_pton4_lt s mask hp
      cases hc : cidrLoop 32 mask 0 with
      | none =>
          constructor
          · intro k hk
            simp only [netmask_to_cidr, hp, hc] at hk
            exact PRes.noConfusion hk
          · rintro ⟨k, hk32, hpk⟩
            injection hpk with hpk
            rw [maskOfPrefixLen_eq k hk32] at hpk
            have hsome : cidrLoop 32 mask 0 = some k := by
              rw [cidrLoop_some_iff 32 mask 0 k (le_refl 32) hm32 (by omega)]
              exact ⟨k, hk32, by omega, hpk⟩
            rw [hc] at hsome
            exact Option.noConfusion hsome
      | some bits =>
          obtain ⟨j, hj, hkj, hmask⟩ :=
            (cidrLoop_some_iff 32 mask 0 bits (le_refl 32) hm32 (by omega)).mp hc
          constructor
          · intro k hk
            simp only [netmask_to_cidr, hp, hc] at hk
            injection hk with hk
            subst hk
            refine ⟨by omega, ?_⟩
            have hje : j = bits := by omega
            rw [maskOfPrefixLen_eq bits (by omega), ← hje, ← hmask]
          · intro _
            refine ⟨bits, ?_⟩
            simp only [netmask_to_cidr, hp, hc]

/-- Witness for C4: the concrete netmask `255.255.255.0` is accepted with
CIDR prefix 24.  -/
theorem netmask_dotted_quad_accept_iff_witness :
    ('.' ∈ "255.255.255.0".data) ∧
    (24 ≤ 32 ∧ inet_pton4 "255.255.255.0" = some (maskOfPrefixLen 24)) :=
  ⟨by decide,
    (netmask_dotted_quad_accept_iff "255.255.255.0" (by decide)).1 24 (by decide)⟩

/-! ## inet_pton, AF_INET6 (glibc `inet_pton6`)

Only success/failure is needed by `is_ip_addr`, so the model returns `Bool`.
`tpLen` is the number of bytes written into the 16-byte buffer, `colonSeen`
whether a `::` position was recorded, `curtok` the suffix starting at the
current group (used for an embedded dotted-quad tail). -/

def hexVal (c : Char) : Nat :=
  if c.isDigit then c.toNat - 48
  else if 'a' ≤ c ∧ c ≤ 'f' then c.toNat - 87
  else c.toNat - 55

def isHexDigitC (c : Char) : Bool :=
  c.isDigit || ('a' ≤ c && c ≤ 'f') || ('A' ≤ c && c ≤ 'F')

def pton6Loop : List Char → Nat → Bool → Nat → Bool → List Char → Bool
  | [], tpLen, colonSeen, _, sawX, _ =>
      if sawX then
        if 16 < tpLen + 2 then false
        else if colonSeen then tpLen + 2 ≠ 16 else tpLen + 2 = 16
      else
        if colonSeen then tpLen ≠ 16 else tpLen = 16
  | ch :: rest, tpLen, colonSeen, val, sawX, curtok =>
      if isHexDigitC ch then
        let val2 := val * 16 + hexVal ch
        if 65535 < val2 then false
        else pton6Loop rest tpLen colonSeen val2 true curtok
      else if ch = ':' then
        if !sawX then
          if colonSeen then false
          else pton6Loop rest tpLen true val false rest
        else if rest = [] then false
        else if 16 < tpLen + 2 then false
        else pton6Loop rest (tpLen + 2) colonSeen 0 false rest
      else if ch = '.' && decide (tpLen + 4 ≤ 16) && (inet_pton4 curtok.asString).isSome then
        if colonSeen then tpLen + 4 ≠ 16 else tpLen + 4 = 16
      else false

/-- glibc `inet_pton(AF_INET6, src, buf) == 1`. -/
def inet_pton6 (s : String) : Bool :=
  match s.data with
  | ':' :: rest =>
      match rest with
      | ':' :: _ => pton6Loop rest 0 false 0 false rest
      | _ => false
  | cs => pton6Loop cs 0 false 0 false cs

/-- `is_ip_addr` of src/ip.c: accepted by `inet_pton` for `AF_INET` or
`AF_INET6`. -/
def is_ip_addr (s : String) : Bool :=
  (inet_pton4 s).isSome || inet_pton6 s

/-! ## strsep and the extract helpers (src/ip.c) -/

/-- C `strsep(&str, sep)` for a single-character separator: the token up to
the first separator, and the advanced string (`none` = `str` set to NULL
because no separator was found). -/
def strsep (sep : Char) (s : String) : String × Option String :=
  let pre := s.data.takeWhile (fun c => c ≠ sep)
  let post := s.data.dropWhile (fun c => c ≠ sep)
  match post with
  | [] => (s, none)
  | _ :: tail => (pre.asString, some tail.asString)

/-- Result of `extract_ip_addr` / `extract_word`: `ok` is a 0 return with
`*ret` and the advanced `*str`; `errTok` is `-EINVAL` with `*ret` already
written (the not-an-IP fallback used by `parse_ip_arg` for the short form);
`err` is `-EINVAL` with `*ret` untouched (a caller reading the token would
read uninitialized memory); `crash` marks a NULL `*str` dereference. -/
inductive CExtract where
  | ok (token : String) (rest : Option String)
  | errTok (token : String) (rest : Option String)
  | err (rest : Option String)
  | crash
deriving DecidableEq, Repr

/-- `extract_ip_addr` of src/ip.c. -/
def extract_ip_addr (str : Option String) (required : Bool) : CExtract :=
  match str with
  | none => .crash
  | some s =>
      if cStartsWith s "[" then
        let (tok, rest) := strsep ']' s
        if cIsEmpty rest then .err rest
        else
          let tok2 := (tok.data.drop 1).asString
          let rest2 := ((Option.getD rest "").data.drop 1).asString
          if required && decide (tok2 = "") then .err (some rest2)
          else .ok tok2 (some rest2)
      else
        let (tok, rest) := strsep ':' s
        if tok ≠ "" && !is_ip_addr tok then .errTok tok rest
        else if required && decide (tok = "") then .err rest
        else .ok tok rest

/-- `extract_word` of src/ip.c (the version with bracket handling). -/
def extract_word (str : Option String) (required : Bool) : CExtract :=
  match str with
  | none => .crash
  | some s =>
      if cStartsWith s "[" then
        if !(s.data.contains ']') then .err (some s)
        else
          let (tok, rest) := strsep ']' s
          -- the C writes a NUL over the character right after the `]` and
          -- advances past it, and restores the `]` at the end of the token
          let tok2 := tok ++ "]"
          let rest2 := ((Option.getD rest "").data.drop 1).asString
          if decide (tok2 = "") && required then .err (some rest2)
          else .ok tok2 (some rest2)
      else
        let (tok, rest) := strsep ':' s
        if decide (tok = "") && required then .err rest
        else .ok tok rest

/-! ## The ip_t record (rdii-networkd.h) -/

/-- `ip_t` of rdii-networkd.h.  `none` models a NULL `char *`.  `netmask`,
`use_dns` and the vlan slots are C `int`s that only ever hold small
non-negative values. -/
structure ip_t where
  client_ip : Option String := none
  peer_ip : Option String := none
  gateway : Option String := none
  gateway1 : Option String := none
  destination : Option String := none
  netmask : Nat := 0
  hostname : Option String := none
  interface : Option String := none
  autoconf : Option String := none
  use_dns : Nat := 0
  dns1 : Option String := none
  dns2 : Option String := none
  ntp : Option String := none
  mtu : Option String := none
  macaddr : Option String := none
  domains : Option String := none
  vlan1 : Nat := 0
  vlan2 : Nat := 0
  vlan3 : Nat := 0
deriving DecidableEq, Repr

/-! ## strtol, base 10 (C library model)

`none` models "no conversion performed" (`endptr == nptr`); otherwise the
exact value and the unconsumed suffix are returned.  Out-of-range values are
kept exact: every caller compares against bounds far below `LONG_MAX`, so
clamping to `LONG_MAX`/`LONG_MIN` with `ERANGE` rejects exactly the same
inputs. -/

def digitsToNat (l : List Char) : Nat :=
  l.foldl (fun a c => a * 10 + (c.toNat - 48)) 0

def strtolDigits (t : List Char) (sign : Int) : Option (Int × List Char) :=
  let digs := t.takeWhile Char.isDigit
  if digs = [] then none
  else some (sign * (digitsToNat digs : Int), t.drop digs.length)

def strtol10 (s : String) : Option (Int × List Char) :=
  let cs := s.data.dropWhile (fun c =>
    c = ' ' || c = '\t' || c = '\n' || c = '\x0b' || c = '\x0c' || c = '\r')
  match cs with
  | '+' :: t => strtolDigits t 1
  | '-' :: t => strtolDigits t (-1)
  | t => strtolDigits t 1

/-! ## parse_ip_arg (src/ip.c) -/

/-- Tail of the long `ip=` form: `[:dns1:dns2[:ntp] | :mtu:macaddr]`
(src/ip.c lines 210-270). -/
def parseIpLongTail (cfg : ip_t) (rest6 : Option String) : PRes ip_t :=
  if cIsEmpty rest6 then .ok cfg
  else
    match extract_word rest6 false with
    | .crash => .crash
    | .err _ => .err (-22)
    | .errTok _ _ => .err (-22)
    | .ok t rest7 =>
        if is_ip_addr t then
          let cfg1 := {cfg with dns1 := some t}
          if cIsEmpty rest7 then .ok cfg1
          else
            match extract_ip_addr rest7 false with
            | .crash => .crash
            | .err _ => .err (-22)
            | .errTok _ _ => .err (-22)
            | .ok d2 rest8 =>
                let cfg2 := {cfg1 with dns2 := some d2}
                if cIsEmpty rest8 then .ok cfg2
                else
                  match extract_ip_addr rest8 false with
                  | .crash => .crash
                  | .err _ => .err (-22)
                  | .errTok _ _ => .err (-22)
                  | .ok nt rest9 =>
                      if !cIsEmpty rest9 then .err (-22)
                      else .ok {cfg2 with ntp := some nt}
        else if t ≠ "" then
          -- must be <mtu>:<macaddr>
          .ok {cfg with mtu := some t, macaddr := rest7}
        else if !cIsEmpty rest7 then
          let r7 := Option.getD rest7 ""
          if (r7.data.filter (fun c => c = ':')).length = 5 then
            .ok {cfg with macaddr := some r7}
          else
            match extract_word rest7 false with
            | .crash => .crash
            | .err _ => .err (-22)
            | .errTok _ _ => .err (-22)
            | .ok d2 rest8 =>
                let cfg2 := {cfg with dns2 := some d2}
                if cIsEmpty rest8 then .ok cfg2
                else
                  let r8 := Option.getD rest8 ""
                  if is_ip_addr r8 then .ok {cfg2 with ntp := some r8}
                  else
                    -- the C returns return_syntax_error(nr, orig, r) with
                    -- r still 0 from extract_word: a 0 return, ntp unset
                    .ok cfg2
        else .ok cfg

/-- Fields hostname / interface / autoconf of the long `ip=` form, then the
tail. -/
def parseIpRest3 (cfg : ip_t) (rest3 : Option String) : PRes ip_t :=
  match extract_word rest3 false with
  | .crash => .crash
  | .err _ => .err (-22)
  | .errTok _ _ => .err (-22)
  | .ok hn rest4 =>
      match extract_word rest4 true with
      | .crash => .crash
      | .err _ => .err (-22)
      | .errTok _ _ => .err (-22)
      | .ok ifc rest5 =>
          match extract_word rest5 false with
          | .crash => .crash
          | .err _ => .err (-22)
          | .errTok _ _ => .err (-22)
          | .ok ac rest6 =>
              parseIpLongTail
                {cfg with hostname := some hn, interface := some ifc,
                          autoconf := some ac} rest6

/-- Long form of `ip=`:
`<client-IP>:[peer]:<gateway>:<netmask>:[hostname]:<interface>:[autoconf]...`. -/
def parseIpLong (clientIp : String) (rest0 : Option String) : PRes ip_t :=
  match extract_ip_addr rest0 false with
  | .crash => .crash
  | .err _ => .err (-22)
  | .errTok _ _ => .err (-22)
  | .ok peer rest1 =>
      match extract_ip_addr rest1 true with
      | .crash => .crash
      | .err _ => .err (-22)
      | .errTok _ _ => .err (-22)
      | .ok gw rest2 =>
          match extract_word rest2 true with
          | .crash => .crash
          | .err _ => .err (-22)
          | .errTok _ _ => .err (-22)
          | .ok nm rest3 =>
              let nmRes : PRes Nat :=
                if nm.data.contains '.' then netmask_to_cidr nm
                else
                  match strtol10 nm with
                  | none => .err (-22)
                  | some (v, remAfter) =>
                      if v < 0 || 128 < v || remAfter ≠ [] then .err (-22)
                      else .ok v.toNat
              match nmRes with
              | .crash => .crash
              | .err e => .err e
              | .ok cidr =>
                  parseIpRest3
                    {client_ip := some clientIp, peer_ip := some peer,
                     gateway := some gw, netmask := cidr} rest3

/-- Short form of `ip=`: `<interface>:<autoconf>[:[mtu][:macaddr]]`. -/
def parseIpShort (iface : String) (rest : Option String) : PRes ip_t :=
  match rest with
  | none => .crash
  | some r =>
      let (tok2, rest2) := strsep ':' r
      let base : ip_t := {interface := some iface, autoconf := some tok2}
      if cIsEmpty rest2 then .ok base
      else
        let r2 := Option.getD rest2 ""
        let (mtuTok, rest3) := strsep ':' r2
        let base2 := {base with mtu := some mtuTok}
        if cIsEmpty rest3 then .ok base2
        else
          let r3 := Option.getD rest3 ""
          if r3.data.getLast? = some ':' then .err (-22)
          else .ok {base2 with macaddr := some r3}

/-- `parse_ip_arg` of src/ip.c. -/
def parse_ip_arg (arg : String) : PRes ip_t :=
  if !(arg.data.contains ':') then .ok {autoconf := some arg}
  else
    match extract_ip_addr (some arg) true with
    | .crash => .crash
    | .err _ => .crash
      -- an empty first token: the C falls into the short-form branch and
      -- reads the uninitialized local `token`
    | .errTok tok rest => parseIpShort tok rest
    | .ok tok rest => parseIpLong tok rest

/-! ## Other directive sub-parsers (src/ip.c) -/

/-- `parse_nameserver_arg` of src/ip.c. -/
def parse_nameserver_arg (arg : String) : PRes ip_t :=
  match extract_ip_addr (some arg) true with
  | .crash => .crash
  | .err _ => .err (-22)
  | .errTok _ _ => .err (-22)
  | .ok tok rest =>
      if !cIsEmpty rest then .err (-22)
      else .ok {dns1 := some tok}

/-- `parse_rd_peerdns_arg` of src/ip.c. -/
def parse_rd_peerdns_arg (arg : String) : PRes ip_t :=
  match extract_word (some arg) true with
  | .crash => .crash
  | .err _ => .err (-22)
  | .errTok _ _ => .err (-22)
  | .ok tok rest =>
      if tok = "0" then
        if !cIsEmpty rest then .err (-22) else .ok {use_dns := 1}
      else if tok = "1" then
        if !cIsEmpty rest then .err (-22) else .ok {use_dns := 2}
      else .err (-22)

/-- Gateway and optional interface of `rd.route=`. -/
def parseRdRouteRest (cfg : ip_t) (rest : Option String) : PRes ip_t :=
  match extract_ip_addr rest false with
  | .crash => .crash
  | .err _ => .err (-22)
  | .errTok _ _ => .err (-22)
  | .ok gw rest2 =>
      let cfg2 := {cfg with gateway := some gw}
      if !cIsEmpty rest2 then
        match extract_word rest2 true with
        | .crash => .crash
        | .err _ => .err (-22)
        | .errTok _ _ => .err (-22)
        | .ok ifc rest3 =>
            let cfg3 := {cfg2 with interface := some ifc}
            if !cIsEmpty rest3 then .err (-22) else .ok cfg3
      else .ok cfg2

/-- `parse_rd_route_arg` of src/ip.c:
`rd.route=<destination>[:<gateway>][:<interface>]`. -/
def parse_rd_route_arg (arg : String) : PRes ip_t :=
  match extract_word (some arg) true with
  | .crash => .crash
  | .err _ => .err (-22)
  | .errTok _ _ => .err (-22)
  | .ok tok rest =>
      if cStartsWith tok "[" then
        let t2 := (tok.data.drop 1).asString
        if t2.data.getLast? ≠ some ']' then
          -- the C returns return_syntax_error(nr, arg, r) with r still 0:
          -- a 0 return with the destination unset
          .ok {}
        else parseRdRouteRest {destination := some t2.data.dropLast.asString} rest
      else parseRdRouteRest {destination := some tok} rest

/-! ## VLAN table and parse_vlan_arg (src/rdii-networkd.c) -/

/-- `get_vlan_id` of src/rdii-networkd.c.  The table is the global
`vlans[VLAN_CAPACITY]` array with `nr_vlanids` entries; entries are
`(id, name)`.  Scanning from the end of the name, the branch is entered at
the first non-digit character, which must sit at an index `≥ 1`; the digit
suffix is then parsed and must lie in `1..4095`.  A new id is stored unless
the `(nr_vlanids+1) == vlan_capacity` check fires first. -/
def extractVlanId (name : String) : Option Nat :=
  let digs := (name.data.reverse.takeWhile Char.isDigit).reverse
  if name.data.length ≤ digs.length + 1 then none
  else if digs = [] then none
  else
    let v := digitsToNat digs
    if v < 1 || 4095 < v then none else some v

def get_vlan_id (vlans : List (Nat × String)) (name : String) :
    List (Nat × String) × PRes Nat :=
  match extractVlanId name with
  | none => (vlans, .err (-22))
  | some v =>
      if v ∈ vlans.map Prod.fst then (vlans, .ok v)
      else if vlans.length + 1 = 10 then (vlans, .err (-12))
      else (vlans ++ [(v, name)], .ok v)

/-- `parse_vlan_arg` of src/ip.c: `vlan=<vlan-name>:<parent-interface>`; the
VLAN table is threaded through because `get_vlan_id` stores into it. -/
def parse_vlan_arg (vlans : List (Nat × String)) (arg : String) :
    List (Nat × String) × PRes ip_t :=
  match extract_word (some arg) true with
  | .crash => (vlans, .crash)
  | .err _ => (vlans, .err (-22))
  | .errTok _ _ => (vlans, .err (-22))
  | .ok tok rest =>
      match get_vlan_id vlans tok with
      | (vl2, .err e) => (vl2, .err e)
      | (vl2, .crash) => (vl2, .crash)
      | (vl2, .ok vid) =>
          match extract_word rest true with
          | .crash => (vl2, .crash)
          | .err _ => (vl2, .err (-22))
          | .errTok _ _ => (vl2, .err (-22))
          | .ok ifc rest2 =>
              if !cIsEmpty rest2 then (vl2, .err (-22))
              else (vl2, .ok {vlan1 := vid, interface := some ifc})

/-! ## dup_config and merge_configs (src/rdii-networkd.c) -/

/-- `dup_config` of src/rdii-networkd.c: copy the set fields of `cfg` on top
of the slot record `tgt`, in source order.  The gateway shuffle moves an
already present gateway into `gateway1`; a fourth VLAN id is `-ENOMEM`
(reported after all other fields were already copied, as in the C). -/
def dup_config (tgt cfg : ip_t) : ip_t × PRes Unit :=
  let t := tgt
  let t := if !cIsEmpty cfg.client_ip then {t with client_ip := cfg.client_ip} else t
  let t := if !cIsEmpty cfg.peer_ip then {t with peer_ip := cfg.peer_ip} else t
  let t := if !cIsEmpty cfg.gateway then
      (if t.gateway ≠ none then {t with gateway1 := t.gateway, gateway := cfg.gateway}
       else {t with gateway := cfg.gateway})
    else t
  let t := if !cIsEmpty cfg.destination then {t with destination := cfg.destination} else t
  let t := if cfg.netmask ≠ 0 then {t with netmask := cfg.netmask} else t
  let t := if !cIsEmpty cfg.hostname then {t with hostname := cfg.hostname} else t
  let t := if !cIsEmpty cfg.interface then {t with interface := cfg.interface} else t
  let t := if !cIsEmpty cfg.autoconf then {t with autoconf := cfg.autoconf} else t
  let t := if cfg.use_dns ≠ 0 then {t with use_dns := cfg.use_dns} else t
  let t := if !cIsEmpty cfg.dns1 then {t with dns1 := cfg.dns1} else t
  let t := if !cIsEmpty cfg.dns2 then {t with dns2 := cfg.dns2} else t
  let t := if !cIsEmpty cfg.ntp then {t with ntp := cfg.ntp} else t
  let t := if !cIsEmpty cfg.mtu then {t with mtu := cfg.mtu} else t
  let t := if !cIsEmpty cfg.macaddr then {t with macaddr := cfg.macaddr} else t
  let t := if !cIsEmpty cfg.domains then {t with domains := cfg.domains} else t
  if cfg.vlan1 ≠ 0 then
    if t.vlan1 = 0 then ({t with vlan1 := cfg.vlan1}, .ok ())
    else if t.vlan2 = 0 then ({t with vlan2 := cfg.vlan1}, .ok ())
    else if t.vlan3 = 0 then ({t with vlan3 := cfg.vlan1}, .ok ())
    else (t, .err (-12))
  else (t, .ok ())

/-- The free-record half of the merge loop: `cfg` (with no interface) is
copied onto every record that has an interface; a dup error returns
immediately (records after it untouched).  Returns the updated list, an
early error if any, and the C `found` flag. -/
def mergeFreeLoop (cfg : ip_t) : List ip_t → List ip_t × Option (PRes Unit) × Bool
  | [] => ([], none, false)
  | c :: rest =>
      if c.interface ≠ none then
        match dup_config c cfg with
        | (c2, .ok _) =>
            match mergeFreeLoop cfg rest with
            | (rest2, res, _) => (c2 :: rest2, res, true)
        | (c2, e) => (c2 :: rest, some e, true)
      else
        match mergeFreeLoop cfg rest with
        | (rest2, res, found) => (c :: rest2, res, found)

/-- `merge_configs` of src/rdii-networkd.c.  The list holds the
`used_configs` populated slots of the global `configs` array. -/
def merge_configs (configs : List ip_t) (cfg : ip_t) : List ip_t × PRes Unit :=
  if configs.length = 10 then (configs, .err (-12))
  else
    match cfg.interface with
    | some _ =>
        match configs.findIdx? (fun c => c.interface = cfg.interface) with
        | some i =>
            match dup_config (configs.getD i {}) cfg with
            | (c2, r) => (configs.set i c2, r)
        | none =>
            match dup_config {} cfg with
            | (c2, .ok _) => (configs ++ [c2], .ok ())
            | (_, e) => (configs, e)
    | none =>
        match mergeFreeLoop cfg configs with
        | (cs2, some e, _) => (cs2, e)
        | (cs2, none, true) => (cs2, .ok ())
        | (cs2, none, false) =>
            match dup_config {} cfg with
            | (c2, .ok _) => (cs2 ++ [c2], .ok ())
            | (_, e) => (cs2, e)

/-! ## Config emitter (src/rdii-networkd.c) -/

/-- `map_dracut_to_networkd`: `none` models the NULL return (empty input, or
the unknown-value case after the warning is printed). -/
def map_dracut_to_networkd (input : Option String) : Option String :=
  if cIsEmpty input then none
  else
    let s := Option.getD input ""
    if s = "none" then some "no"
    else if s = "off" then some "no"
    else if s = "on" then some "yes"
    else if s = "any" then some "yes"
    else if s = "dhcp" then some "ipv4"
    else if s = "dhcp6" then some "ipv6"
    else if s = "auto6" then some "no"
    else if s = "either6" then some "ipv6"
    else if s = "ibft" then some "no"
    else if s = "link6" then some "no"
    else if s = "link-local" then some "no"
    else none

/-- Decimal rendering padded to two digits (C `%02d`). -/
def natPad2 (n : Nat) : String :=
  if n < 10 then "0" ++ toString n else toString n

/-- Decimal rendering padded to four digits (C `%04d`). -/
def natPad4 (n : Nat) : String :=
  if n < 10 then "000" ++ toString n
  else if n < 100 then "00" ++ toString n
  else if n < 1000 then "0" ++ toString n
  else toString n

/-- `write_vlan_entry`: the `VLAN=` line for a registered id, nothing when
the id is not in the table (the `-ENOKEY` return is ignored/`XXX` in C). -/
def write_vlan_entry (vlans : List (Nat × String)) (vlanid : Nat) : List String :=
  match vlans.find? (fun v => v.fst = vlanid) with
  | some v => ["VLAN=" ++ v.snd]
  | none => []

/-- `write_network_config` of src/rdii-networkd.c: the lines of one
`.network` file for a merged record.  `fprintf(fp, "DHCP=%s\n", NULL)` is
what the C executes for an unknown autoconf value; glibc renders the NULL
as `(null)`. -/
def write_network_config (vlans : List (Nat × String)) (cfg : ip_t) : List String :=
  let iface := Option.getD cfg.interface ""
  let matchSec :=
    ["[Match]"] ++
    (if cIsEmpty cfg.interface || iface = "*" then ["Kind=!*", "Type=!loopback"]
     else if iface.data.contains ':' then ["Name=*", "MACAddress=" ++ iface]
     else ["Name=" ++ iface])
  let linkSec :=
    if !cIsEmpty cfg.mtu || !cIsEmpty cfg.macaddr then
      ["", "[Link]"] ++
      (if !cIsEmpty cfg.macaddr then ["MACAddress=" ++ Option.getD cfg.macaddr ""] else []) ++
      (if !cIsEmpty cfg.mtu then ["MTUBytes=" ++ Option.getD cfg.mtu ""] else [])
    else []
  let networkSec :=
    if !cIsEmpty cfg.autoconf || !cIsEmpty cfg.dns1 || !cIsEmpty cfg.dns2 ||
        !cIsEmpty cfg.ntp || cfg.vlan1 ≠ 0 then
      ["", "[Network]"] ++
      (if !cIsEmpty cfg.autoconf then
        ["DHCP=" ++ (match map_dracut_to_networkd cfg.autoconf with
                     | some s => s
                     | none => "(null)")] ++
        (if cfg.autoconf = some "off" then ["LinkLocalAddressing=no", "IPv6AcceptRA=no"]
         else [])
       else []) ++
      (if !cIsEmpty cfg.dns1 then ["DNS=" ++ Option.getD cfg.dns1 ""] else []) ++
      (if !cIsEmpty cfg.dns2 then ["DNS=" ++ Option.getD cfg.dns2 ""] else []) ++
      (if !cIsEmpty cfg.domains then ["Domains=" ++ Option.getD cfg.domains ""] else []) ++
      (if !cIsEmpty cfg.ntp then ["NTP=" ++ Option.getD cfg.ntp ""] else []) ++
      (if cfg.vlan1 ≠ 0 then write_vlan_entry vlans cfg.vlan1 else []) ++
      (if cfg.vlan2 ≠ 0 then write_vlan_entry vlans cfg.vlan2 else []) ++
      (if cfg.vlan3 ≠ 0 then write_vlan_entry vlans cfg.vlan3 else [])
    else []
  let dhcpSec :=
    if !cIsEmpty cfg.hostname || 0 < cfg.use_dns then
      ["", "[DHCP]"] ++
      (if cfg.hostname ≠ none then ["Hostname=" ++ Option.getD cfg.hostname ""] else []) ++
      (if cfg.use_dns = 1 then ["UseDNS=no"] else []) ++
      (if cfg.use_dns = 2 then ["UseDNS=yes"] else [])
    else []
  let addrSec :=
    if !cIsEmpty cfg.client_ip then
      ["", "[Address]",
       "Address=" ++ Option.getD cfg.client_ip "" ++ "/" ++ toString cfg.netmask] ++
      (if !cIsEmpty cfg.peer_ip then ["Peer=" ++ Option.getD cfg.peer_ip ""] else [])
    else []
  let routeSec :=
    if !cIsEmpty cfg.gateway || !cIsEmpty cfg.destination then
      ["", "[Route]"] ++
      (if !cIsEmpty cfg.destination then ["Destination=" ++ Option.getD cfg.destination ""] else []) ++
      (if !cIsEmpty cfg.gateway then ["Gateway=" ++ Option.getD cfg.gateway ""] else [])
    else []
  let routeSec2 :=
    if !cIsEmpty cfg.gateway1 then ["", "[Route]", "Gateway=" ++ Option.getD cfg.gateway1 ""]
    else []
  matchSec ++ linkSec ++ networkSec ++ dhcpSec ++ addrSec ++ routeSec ++ routeSec2

/-- `write_netdev_file` of src/rdii-networkd.c: name and lines of one
`.netdev` file. -/
def write_netdev_file (outdir : String) (vlan : Nat × String) : String × List String :=
  (outdir ++ "/62-rdii-" ++ vlan.snd ++ ".netdev",
   ["[NetDev]", "Name=" ++ vlan.snd, "Kind=vlan", "", "[VLAN]", "Id=" ++ toString vlan.fst])

/-! ## Emitted-file store

Emitted files as `(path, lines)` pairs.  `fopen(path, "w")` truncates an
existing file; `fopen(path, "a")` appends. -/

def fsFind (files : List (String × List String)) (name : String) : Option (List String) :=
  (files.find? (fun f => f.fst = name)).map Prod.snd

def fsWrite (files : List (String × List String)) (name : String) (lines : List String) :
    List (String × List String) :=
  if (files.find? (fun f => f.fst = name)).isSome then
    files.map (fun f => if f.fst = name then (name, lines) else f)
  else files ++ [(name, lines)]

def fsAppend (files : List (String × List String)) (name : String) (lines : List String) :
    List (String × List String) :=
  files.map (fun f => if f.fst = name then (name, f.snd ++ lines) else f)

/-! ## The legacy ifcfg path (src/ifcfg.c) -/

/-- `trim_whitespace` of src/ifcfg.c: NULL/empty in, NULL out; otherwise both
ends trimmed (an all-whitespace string yields the empty string). -/
def isspaceC (c : Char) : Bool :=
  c = ' ' || c = '\t' || c = '\n' || c = '\x0b' || c = '\x0c' || c = '\r'

def trim_whitespace (s : Option String) : Option String :=
  match s with
  | none => none
  | some t =>
      if t = "" then none
      else
        let t1 := t.data.dropWhile isspaceC
        if t1 = [] then some ""
        else some (t1.reverse.dropWhile isspaceC).reverse.asString

/-- NULL-safe `strsep` (C `strsep` returns NULL when `*stringp` is NULL). -/
def optStrsep (sep : Char) (s : Option String) : Option String × Option String :=
  match s with
  | none => (none, none)
  | some t =>
      match strsep sep t with
      | (tok, rest) => (some tok, rest)

/-- `split_and_write` of src/ifcfg.c: one `Key=value` line per space-separated
element (empty elements included, as `strsep` produces them). -/
def splitCharAux (sep : Char) : List Char → List Char → List String
  | [], cur => [cur.reverse.asString]
  | c :: rest, cur =>
      if c = sep then cur.reverse.asString :: splitCharAux sep rest []
      else splitCharAux sep rest (c :: cur)

/-- All fields of `s` split at every occurrence of `sep` (the successive
`strsep` results of the C loop, empty fields included). -/
def splitChar (sep : Char) (s : String) : List String := splitCharAux sep s.data []

def split_and_write (key : String) (list : Option String) : List String :=
  if cIsEmpty list then []
  else (splitChar ' ' (Option.getD list "")).map (fun t => key ++ "=" ++ t)

/-- `write_vlan_file` of src/ifcfg.c: create the parent-ether fragment or
append another `VLAN=` line to it. -/
def write_vlan_file (outdir : String) (files : List (String × List String))
    (iface : String) (vlanid : Nat) : List (String × List String) :=
  let name := outdir ++ "/64-ifcfg-vlan-" ++ iface ++ ".network"
  if (fsFind files name).isSome then
    fsAppend files name ["VLAN=Vlan" ++ natPad4 vlanid]
  else
    fsWrite files name
      ["[Match]", "Name=" ++ iface, "Type=ether", "", "[Network]",
       "Description=The unconfigured physical ethernet device",
       "VLAN=Vlan" ++ natPad4 vlanid, "# 'tagged only' setup",
       "LinkLocalAddressing=no", "LLDP=no", "EmitLLDP=no",
       "IPv6AcceptRA=no", "IPv6SendRA=no"]

/-- `write_network_file` of src/ifcfg.c. -/
def write_network_file (outdir : String) (files : List (String × List String))
    (nr : Nat) (cfg : ip_t) (rfc2132 : Bool) (vlanid : Nat) :
    List (String × List String) :=
  let iface := Option.getD cfg.interface ""
  let ac := Option.getD cfg.autoconf ""
  let name := outdir ++ "/66-ifcfg-dev-" ++ natPad2 nr ++ ".network"
  let lines :=
    ["[Match]"] ++
    (if vlanid ≠ 0 then ["Name=Vlan" ++ natPad4 vlanid, "Type=vlan"]
     else if iface.data.contains ':' then ["Name=*", "MACAddress=" ++ iface]
     else ["Name=" ++ iface]) ++
    ["", "[Network]"] ++
    (if !cIsEmpty cfg.autoconf then
      (if ac = "dhcp" then ["DHCP=yes"]
       else if ac = "dhcp4" then ["DHCP=ipv4"]
       else if ac = "dhcp6" then ["DHCP=ipv6"]
       else [])
     else []) ++
    split_and_write "Address" cfg.client_ip ++
    split_and_write "Gateway" cfg.gateway ++
    split_and_write "DNS" cfg.dns1 ++
    (if !cIsEmpty cfg.domains then ["Domains=" ++ Option.getD cfg.domains ""] else []) ++
    (if !cIsEmpty cfg.autoconf then
      (if ac = "dhcp" || ac = "dhcp4" then
        ["", "[DHCPv4]", "UseHostname=false", "UseDNS=true", "UseNTP=true"] ++
        (if rfc2132 then ["ClientIdentifier=mac"] else [])
       else []) ++
      (if ac = "dhcp" || ac = "dhcp6" then
        ["", "[DHCPv6]", "UseHostname=false", "UseDNS=true", "UseNTP=true"]
       else [])
     else []) ++ []
  let files2 := fsWrite files name lines
  if vlanid ≠ 0 then write_vlan_file outdir files2 iface vlanid else files2

/-- `extract_word` of src/ifcfg.c (separator parameter, no bracket
handling). -/
def extract_word_sep (sep : Char) (str : Option String) (required : Bool) : CExtract :=
  match str with
  | none => .crash
  | some s =>
      let (tok, rest) := strsep sep s
      if decide (tok = "") && required then .err rest
      else .ok tok rest

/-- `parse_ifcfg_arg` of src/ifcfg.c.  Threads the ifcfg-local VLAN id table
and the emitted files; `strneq(NULL, "dhcp", 4)` (an empty first list
position trimmed to NULL) is a `crash`. -/
def parse_ifcfg_arg (outdir : String) (ifcfgVlans : List Nat)
    (files : List (String × List String)) (nr : Nat) (arg : String) :
    (List Nat × List (String × List String)) × PRes Unit :=
  match extract_word_sep '=' (some arg) true with
  | .crash => ((ifcfgVlans, files), .crash)
  | .err _ => ((ifcfgVlans, files), .err (-22))
  | .errTok _ _ => ((ifcfgVlans, files), .err (-22))
  | .ok tok rest =>
      if tok = "" || cIsEmpty rest then ((ifcfgVlans, files), .err (-2))
      else
        -- strrchr(cfg.interface, '.'): VLAN suffix handling
        let hasDot := tok.data.contains '.'
        let base :=
          if hasDot then (tok.data.reverse.dropWhile (fun c => c ≠ '.')).reverse.dropLast.asString
          else tok
        let vstr := if hasDot then (tok.data.reverse.takeWhile (fun c => c ≠ '.')).reverse.asString
          else ""
        let vlanRes : (List Nat × PRes Nat) :=
          if hasDot then
            match strtol10 vstr with
            | none => (ifcfgVlans, .err (-22))
            | some (l, remAfter) =>
                if l < 1 || 4095 < l || remAfter ≠ [] then (ifcfgVlans, .err (-22))
                else
                  let vid := l.toNat
                  if ifcfgVlans.contains vid then (ifcfgVlans, .ok vid)
                  else if ifcfgVlans.length + 1 = 10 then (ifcfgVlans, .err (-12))
                  else (ifcfgVlans ++ [vid], .ok vid)
          else (ifcfgVlans, .ok 0)
        match vlanRes with
        | (iv2, .err e) => ((iv2, files), .err e)
        | (iv2, .crash) => ((iv2, files), .crash)
        | (iv2, .ok vlanid) =>
            let (ipTok, s1) := optStrsep ',' rest
            let (gwTok, s2) := optStrsep ',' s1
            let (dnsTok, s3) := optStrsep ',' s2
            let (domTok, _) := optStrsep ',' s3
            let ip_list := trim_whitespace ipTok
            let gw_list := trim_whitespace gwTok
            let dns_list := trim_whitespace dnsTok
            let domains := trim_whitespace domTok
            match ip_list with
            | none => ((iv2, files), .crash)  -- strneq(NULL, "dhcp", 4)
            | some ips =>
                let cfg : ip_t :=
                  if cStartsWith ips "dhcp" then
                    {interface := some base, autoconf := some ips}
                  else
                    {interface := some base, client_ip := some ips,
                     gateway := gw_list, dns1 := dns_list, domains := domains}
                let rfc2132 :=
                  cStartsWith ips "dhcp" && !cIsEmpty gw_list &&
                    decide (gw_list = some "rfc2132")
                let files2 := write_network_file outdir files nr cfg rfc2132 vlanid
                ((iv2, files2), .ok ())

/-! ## Kernel-command-line tokenizer (src/rdii-networkd.c main) -/

/-- The quote-aware splitting loop of `main`: a token ends at an unquoted
space or at the last character of the line; `"` toggles the in-quote flag
and is kept in the token. -/
def cTokenizeLoop : List Char → Bool → List Char → List String
  | [], _, _ => []
  | [c], _, cur =>
      if c = ' ' then [cur.asString] else [(cur ++ [c]).asString]
  | c :: rest, inQ, cur =>
      let inQ2 := if c = '"' then !inQ else inQ
      if c = ' ' && !inQ2 then cur.asString :: cTokenizeLoop rest inQ2 []
      else cTokenizeLoop rest inQ2 (cur ++ [c])

def cTokenize (s : String) : List String := cTokenizeLoop s.data false []

/-- Quote stripping around an `ifcfg=` value on the kernel command line. -/
def stripIfcfgQuotes (val : String) : String :=
  if cStartsWith val "\"" then
    let v2 := (val.data.drop 1).asString
    if 0 < v2.data.length && decide (v2.data.getLast? = some '"') then
      v2.data.dropLast.asString
    else v2
  else val

/-! ## Main dispatch (src/rdii-networkd.c main) -/

/-- The three global tables of rdii-networkd.c plus the emitted files. -/
structure MainState where
  configs : List ip_t := []
  vlans : List (Nat × String) := []
  ifcfgVlans : List Nat := []
  files : List (String × List String) := []
deriving DecidableEq, Repr

/-- One pass of the command-line token loop (lines 691-750 of
rdii-networkd.c).  `line` is the whole command line (the `vlan=` dispatch
tests `line`, not the token — as the C does).  An `ifcfg=` failure other
than `-ENOMEM` skips the token; under `--parse-all` any negative return of
the other sub-parsers exits `main` with `-r`. -/
def cmdStepList (outdir : String) (parseAll : Bool) (line : String) :
    MainState → Nat → List String → PRes MainState
  | st, _, [] => .ok st
  | st, nr, tok :: rest =>
      if cStartsWith tok "ifcfg=" then
        let val := stripIfcfgQuotes (cDrop 6 tok)
        match parse_ifcfg_arg outdir st.ifcfgVlans st.files nr val with
        | (_, .crash) => .crash
        | ((iv, fs), .ok _) =>
            cmdStepList outdir parseAll line
              {st with ifcfgVlans := iv, files := fs} (nr + 1) rest
        | ((iv, fs), .err e) =>
            if e = -12 then .err 12
            else
              cmdStepList outdir parseAll line
                {st with ifcfgVlans := iv, files := fs} (nr + 1) rest
      else if parseAll then
        if cStartsWith tok "ip=" then
          match parse_ip_arg (cDrop 3 tok) with
          | .crash => .crash
          | .err e => .err (-e)
          | .ok cfg =>
              match merge_configs st.configs cfg with
              | (cs2, _) =>
                  cmdStepList outdir parseAll line {st with configs := cs2} (nr + 1) rest
        else if cStartsWith tok "nameserver=" then
          match parse_nameserver_arg (cDrop 11 tok) with
          | .crash => .crash
          | .err e => .err (-e)
          | .ok cfg =>
              match merge_configs st.configs cfg with
              | (cs2, _) =>
                  cmdStepList outdir parseAll line {st with configs := cs2} (nr + 1) rest
        else if cStartsWith tok "rd.peerdns=" then
          match parse_rd_peerdns_arg (cDrop 11 tok) with
          | .crash => .crash
          | .err e => .err (-e)
          | .ok cfg =>
              match merge_configs st.configs cfg with
              | (cs2, _) =>
                  cmdStepList outdir parseAll line {st with configs := cs2} (nr + 1) rest
        else if cStartsWith tok "rd.route=" then
          match parse_rd_route_arg (cDrop 9 tok) with
          | .crash => .crash
          | .err e => .err (-e)
          | .ok cfg =>
              match merge_configs st.configs cfg with
              | (cs2, _) =>
                  cmdStepList outdir parseAll line {st with configs := cs2} (nr + 1) rest
        else if cStartsWith line "vlan=" then
          match parse_vlan_arg st.vlans (cDrop 5 tok) with
          | (vl2, .crash) => .crash
          | (vl2, .err e) => .err (-e)
          | (vl2, .ok cfg) =>
              match merge_configs st.configs cfg with
              | (cs2, _) =>
                  cmdStepList outdir parseAll line
                    {st with configs := cs2, vlans := vl2} (nr + 1) rest
        else cmdStepList outdir parseAll line st nr rest
      else cmdStepList outdir parseAll line st nr rest

/-- Strip the trailing newline kept by `getline` (file mode). -/
def stripNl (s : String) : String :=
  if s.data.getLast? = some '\n' then s.data.dropLast.asString else s

/-- One pass of the configuration-file line loop (lines 581-617).  A line
whose prefix is not recognized gets `r = 255`: it is neither an error nor
merged — silently ignored.  Negative sub-parser returns abort with `-r`. -/
def fileStepList (outdir : String) : MainState → Nat → List String → PRes MainState
  | st, _, [] => .ok st
  | st, lineCount, rawLine :: rest =>
      let lc := lineCount + 1
      if rawLine = "" || cStartsWith rawLine "#" || cStartsWith rawLine "\n" then
        fileStepList outdir st lc rest
      else
        let line := stripNl rawLine
        if cStartsWith line "ip=" then
          match parse_ip_arg (cDrop 3 line) with
          | .crash => .crash
          | .err e => .err (-e)
          | .ok cfg =>
              match merge_configs st.configs cfg with
              | (cs2, _) => fileStepList outdir {st with configs := cs2} lc rest
        else if cStartsWith line "nameserver=" then
          match parse_nameserver_arg (cDrop 11 line) with
          | .crash => .crash
          | .err e => .err (-e)
          | .ok cfg =>
              match merge_configs st.configs cfg with
              | (cs2, _) => fileStepList outdir {st with configs := cs2} lc rest
        else if cStartsWith line "rd.peerdns=" then
          match parse_rd_peerdns_arg (cDrop 11 line) with
          | .crash => .crash
          | .err e => .err (-e)
          | .ok cfg =>
              match merge_configs st.configs cfg with
              | (cs2, _) => fileStepList outdir {st with configs := cs2} lc rest
        else if cStartsWith line "rd.route=" then
          match parse_rd_route_arg (cDrop 9 line) with
          | .crash => .crash
          | .err e => .err (-e)
          | .ok cfg =>
              match merge_configs st.configs cfg with
              | (cs2, _) => fileStepList outdir {st with configs := cs2} lc rest
        else if cStartsWith line "vlan=" then
          match parse_vlan_arg st.vlans (cDrop 5 line) with
          | (_, .crash) => .crash
          | (_, .err e) => .err (-e)
          | (vl2, .ok cfg) =>
              match merge_configs st.configs cfg with
              | (cs2, _) =>
                  fileStepList outdir {st with configs := cs2, vlans := vl2} lc rest
        else if cStartsWith line "ifcfg=" then
          match parse_ifcfg_arg outdir st.ifcfgVlans st.files lc (cDrop 6 line) with
          | (_, .crash) => .crash
          | ((iv, fs), .err e) => .err (-e)
          | ((iv, fs), .ok _) =>
              -- r == 0: main then calls merge_configs on the still-empty cfg
              let st2 := {st with ifcfgVlans := iv, files := fs}
              match merge_configs st2.configs {} with
              | (cs2, _) => fileStepList outdir {st2 with configs := cs2} lc rest
        else
          -- r = 255: "Ignoring: ..." (debug only), no error, no merge
          fileStepList outdir st lc rest

/-- Final emission of `main`: one `.network` file per merged record
(index + 1, `%02d`), then one `.netdev` file per VLAN entry. -/
def emitFinal (outdir : String) (st : MainState) : MainState :=
  let step := fun (acc : List (String × List String) × Nat) (cfg : ip_t) =>
    (fsWrite acc.fst (outdir ++ "/66-ip-" ++ natPad2 (acc.snd + 1) ++ ".network")
      (write_network_config st.vlans cfg), acc.snd + 1)
  let files2 := (st.configs.foldl step (st.files, 0)).fst
  let files3 := st.vlans.foldl
    (fun fs v =>
      match write_netdev_file outdir v with
      | (name, lines) => fsWrite fs name lines) files2
  {st with files := files3}

/-- The argv-joining of `main`: arguments concatenated with single
spaces. -/
def joinWith (sep : String) : List String → String
  | [] => ""
  | [a] => a
  | a :: rest => a ++ sep ++ joinWith sep rest

/-- `main` in command-line mode: positional arguments joined by single
spaces, tokenized, dispatched, then emitted. -/
def runNetworkdArgs (outdir : String) (parseAll : Bool) (args : List String) :
    PRes MainState :=
  let line := joinWith " " args
  match cmdStepList outdir parseAll line {} 1 (cTokenize line) with
  | .ok st => .ok (emitFinal outdir st)
  | .err e => .err e
  | .crash => .crash

/-- `main` in configuration-file mode: `lines` are the raw `getline`
results (trailing newlines included). -/
def runNetworkdFile (outdir : String) (lines : List String) : PRes MainState :=
  match fileStepList outdir {} 0 lines with
  | .ok st => .ok (emitFinal outdir st)
  | .err e => .err e
  | .crash => .crash

/-! ## UTF-16LE decoding (lib/efivars.c)

`data` is `const char *`, so each byte is sign-extended to `int` before the
shift/or; the result is truncated to `uint16_t`.  `sext8_32` is the 32-bit
two's-complement image of the signed char. -/

def sext8_32 (b : Nat) : Nat := if b < 128 then b else 4294967040 + b

/-- `(uint16_t)(data[2i] | (data[2i+1] << 8))` for byte values `lo`, `hi`. -/
def decodeUnit (lo hi : Nat) : Nat :=
  (sext8_32 lo ||| sext8_32 hi * 256 % 4294967296) % 65536

/-- The code units scanned by the loop, in order. -/
def utf16Units : List Nat → List Nat
  | lo :: hi :: rest => decodeUnit lo hi :: utf16Units rest
  | _ => []

/-- The conversion loop: stop at NUL, reject units `≥ 128`, map `\` to `/`. -/
def utf16Loop : List Nat → Except Int (List Char)
  | [] => .ok []
  | u :: rest =>
      if u = 0 then .ok []
      else if u < 128 then
        match utf16Loop rest with
        | .ok cs => .ok (Char.ofNat (if u = 92 then 47 else u) :: cs)
        | .error e => .error e
      else .error (-34)

/-- `utf16_to_utf8` of lib/efivars.c (allocation assumed to succeed). -/
def utf16_to_utf8 (bytes : List Nat) : Except Int String :=
  if bytes.length % 2 ≠ 0 then .error (-22)
  else
    match utf16Loop (utf16Units bytes) with
    | .ok cs => .ok cs.asString
    | .error e => .error e

/-! ## read_efi_var (lib/efivars.c)

The efivars store is a map from variable file name to raw file contents
(regular files; open/stat/read succeed on present names).  `M` is the
allocator budget: `malloc(n)` succeeds iff `n ≤ M` (glibc `malloc(0)`
returns a non-NULL pointer).  The C computes the payload size as
`size - 4` in `size_t` arithmetic, which wraps for sizes below 4. -/

def read_efi_var (store : String → Option (List Nat)) (M : Nat) (name : String) :
    Except Int (List Nat) :=
  match store name with
  | none => .error (-2)
  | some contents =>
      let size := contents.length % 18446744073709551616
      if M < size then .error (-12)
      else
        let size2 := (size + 18446744073709551616 - 4) % 18446744073709551616
        if M < size2 then .error (-12)
        else .ok ((contents.drop 4).take size2)

/-- `read_efi_var_string` of lib/efivars.c. -/
def read_efi_var_string (store : String → Option (List Nat)) (M : Nat)
    (name : String) : Except Int String :=
  match read_efi_var store M name with
  | .error e => .error e
  | .ok data => utf16_to_utf8 data

/-! ## efi_boot_systemd_stub (lib/efivars.c) -/

/-- The caller-visible boot-source record (`efivars_t`). -/
structure efivars_t where
  url : Option String := none
  device : Option String := none
  image : Option String := none
  entry : Option String := none
  def_efi_partition : Option String := none
  is_pxe_boot : Bool := false
deriving DecidableEq, Repr

/-- Reading one loader variable: `-ENOENT` leaves the field NULL, any other
error propagates. -/
def readLoaderVar (store : String → Option (List Nat)) (M : Nat) (name : String) :
    Except Int (Option String) :=
  match read_efi_var_string store M name with
  | .ok s => .ok (some s)
  | .error e => if e = -2 then .ok none else .error e

/-- ASCII lowercasing of `tolower` applied per character. -/
def asciiLower (c : Char) : Char :=
  if 'A' ≤ c ∧ c ≤ 'Z' then Char.ofNat (c.toNat + 32) else c

def asciiLowerStr (s : String) : String := (s.data.map asciiLower).asString

/-- `efi_boot_systemd_stub` of lib/efivars.c: reads the four loader
variables; a non-NULL partition UUID (even an empty string) is lowercased
and prefixed, and only then is the image identifier read; fails with
`-ENOENT` when url, device and image are all empty. -/
def efi_boot_systemd_stub (store : String → Option (List Nat)) (M : Nat) :
    Except Int efivars_t :=
  match readLoaderVar store M "LoaderEntrySelected" with
  | .error e => .error e
  | .ok entry =>
      match readLoaderVar store M "LoaderDeviceURL" with
      | .error e => .error e
      | .ok url =>
          match readLoaderVar store M "LoaderDevicePartUUID" with
          | .error e => .error e
          | .ok dev =>
              let step : Except Int (Option String × Option String) :=
                match dev with
                | none => .ok (none, none)
                | some d =>
                    match readLoaderVar store M "LoaderImageIdentifier" with
                    | .error e => .error e
                    | .ok img =>
                        .ok (some ("/dev/disk/by-partuuid/" ++ asciiLowerStr d), img)
              match step with
              | .error e => .error e
              | .ok (dev2, img) =>
                  if cIsEmpty url && cIsEmpty dev2 && cIsEmpty img then .error (-2)
                  else .ok {url := url, device := dev2, image := img, entry := entry}

/-! ## parse_device_path (lib/efivars.c)

The blob is modelled as an unbounded memory `mem : Nat → Nat` (the C pointer
arithmetic can read past the declared `limit`; the instrumentation below
records every byte offset the code reads).  `_efivars_debug` is false, so
debug-only reads do not occur; the hard-drive GUID read, the file/URI
payload reads and the IPv4 remote-IP test are unconditional. -/

def memBytes (mem : Nat → Nat) (start len : Nat) : List Nat :=
  (List.range len).map (fun i => mem (start + i))

/-- %02x / %04x / %08x lowercase hex rendering. -/
def hexDigit (n : Nat) : Char :=
  if n < 10 then Char.ofNat (48 + n) else Char.ofNat (87 + n)

def hexPad (w n : Nat) : String :=
  ((List.range w).reverse.map (fun i => hexDigit (n / 16 ^ i % 16))).asString

/-- The hard-drive GUID at `base`, rendered as the C `asprintf` does
(mixed-endian: three little-endian fields, then the raw tail bytes). -/
def renderGuid (mem : Nat → Nat) (base : Nat) : String :=
  let b := fun i => mem (base + i)
  "/dev/disk/by-partuuid/" ++
  hexPad 8 (b 0 + 256 * b 1 + 65536 * b 2 + 16777216 * b 3) ++ "-" ++
  hexPad 4 (b 4 + 256 * b 5) ++ "-" ++
  hexPad 4 (b 6 + 256 * b 7) ++ "-" ++
  hexPad 2 (b 8) ++ hexPad 2 (b 9) ++ "-" ++
  hexPad 2 (b 10) ++ hexPad 2 (b 11) ++ hexPad 2 (b 12) ++
  hexPad 2 (b 13) ++ hexPad 2 (b 14) ++ hexPad 2 (b 15)

/-- Node-loop state of `parse_device_path`. -/
structure DPState where
  url : Option String := none
  dev : Option String := none
  img : Option String := none
  pxe : Bool := false
deriving DecidableEq, Repr

/-- The final `-ENOENT` gate of `parse_device_path`. -/
def dpFinish (s : DPState) (acc : List Nat) : List Nat × Except Int efivars_t :=
  if cIsEmpty s.url && cIsEmpty s.dev && cIsEmpty s.img && !s.pxe then
    (acc, .error (-2))
  else (acc, .ok {url := s.url, device := s.dev, image := s.img, is_pxe_boot := s.pxe})

/-- One node body of the `parse_device_path` switch: either the updated
state and accessed offsets for the next iteration (`inl`), or an early
return from a failed UTF-16 decode (`inr`). -/
def dpNodeStep (mem : Nat → Nat) (offset : Nat) (s : DPState) (acc1 : List Nat)
    (ty sub len : Nat) :
    (DPState × List Nat) ⊕ (List Nat × Except Int efivars_t) :=
  if ty = 4 && sub = 1 then
    if 42 ≤ len then
      .inl ({s with dev := some (renderGuid mem (offset + 24))},
        acc1 ++ (List.range 16).map (fun i => offset + 24 + i))
    else .inl (s, acc1)
  else if ty = 4 && sub = 4 then
    let acc2 := acc1 ++ (List.range (len - 4)).map (fun i => offset + 4 + i)
    match utf16_to_utf8 (memBytes mem (offset + 4) (len - 4)) with
    | .error e => .inr (acc2, .error e)
    | .ok str => .inl ({s with img := some str}, acc2)
  else if ty = 3 && sub = 24 then
    let acc2 := acc1 ++ (List.range (len - 4)).map (fun i => offset + 4 + i)
    match utf16_to_utf8 (memBytes mem (offset + 4) (len - 4)) with
    | .error e => .inr (acc2, .error e)
    | .ok str => .inl ({s with url := some str}, acc2)
  else if ty = 3 && sub = 11 then .inl ({s with pxe := true}, acc1)
  else if ty = 3 && sub = 12 then
    let acc2 := acc1 ++ [offset + 8, offset + 9, offset + 10, offset + 11]
    let z := mem (offset + 8) = 0 && mem (offset + 9) = 0 &&
             mem (offset + 10) = 0 && mem (offset + 11) = 0
    .inl (if z then {s with pxe := true} else s, acc2)
  else .inl (s, acc1)

/-- The node loop of `parse_device_path`, instrumented with the list of byte
offsets read from `data`.  Reading the 4-byte node header is guarded only
by `offset < limit`, exactly as in the C; `fuel` bounds the iterations
(each one advances `offset` by at least 4, so `limit + 1` is always
enough). -/
def parseDPLoop (mem : Nat → Nat) (limit : Nat) :
    Nat → Nat → DPState → List Nat → List Nat × Except Int efivars_t
  | 0, _, s, acc => dpFinish s acc
  | fuel + 1, offset, s, acc =>
      if limit ≤ offset then dpFinish s acc
      else
        let ty := mem offset
        let sub := mem (offset + 1)
        let len := mem (offset + 2) + 256 * mem (offset + 3)
        let acc1 := acc ++ [offset, offset + 1, offset + 2, offset + 3]
        if ty = 127 && sub ≠ 0 then dpFinish s acc1
        else if len < 4 then dpFinish s acc1
        else if limit < offset + len then dpFinish s acc1
        else
          match dpNodeStep mem offset s acc1 ty sub len with
          | .inr out => out
          | .inl (s2, acc2) => parseDPLoop mem limit fuel (offset + len) s2 acc2

/-- `parse_device_path` of lib/efivars.c with read instrumentation:
the accessed offsets and the result. -/
def parse_device_path (mem : Nat → Nat) (limit : Nat) :
    List Nat × Except Int efivars_t :=
  parseDPLoop mem limit (limit + 1) 0 {} []

/-! ## Claim C6: the UTF-16LE decoder -/

lemma decodeUnit_hi_zero (lo : Nat) (h2 : lo < 256) :
    decodeUnit lo 0 = if lo < 128 then lo else 65280 + lo := by
  unfold decodeUnit sext8_32
  by_cases h : lo < 128
  · simp only [if_pos h, if_pos (by norm_num : (0:Nat) < 128)]
    rw [show (0 : Nat) * 256 % 4294967296 = 0 from rfl, Nat.or_zero]
    omega
  · simp only [if_neg h, if_pos (by norm_num : (0:Nat) < 128)]
    rw [show (0 : Nat) * 256 % 4294967296 = 0 from rfl, Nat.or_zero]
    omega

lemma decodeUnit_ge_256 (lo hi : Nat) (hhi : hi < 256) (h : hi ≠ 0) :
    256 ≤ decodeUnit lo hi := by
  obtain ⟨i, hbit, hmax⟩ := Nat.exists_most_significant_bit h
  have hi8 : i < 8 := by
    by_contra h8
    push_neg at h8
    have h1 := Nat.testBit_implies_ge hbit
    have h2 : (2:Nat)^8 ≤ 2^i := Nat.pow_le_pow_right (by norm_num) h8
    norm_num at h2
    omega
  have hBC : ∃ C, sext8_32 hi * 256 % 4294967296 = 256 * C ∧ C % 256 = hi := by
    unfold sext8_32
    by_cases hcase : hi < 128
    · exact ⟨hi, by rw [if_pos hcase]; omega, by omega⟩
    · exact ⟨16776960 + hi, by rw [if_neg hcase]; omega, by omega⟩
  obtain ⟨C, hB, hC⟩ := hBC
  have hCbit : C.testBit i = true := by
    have h1 : (C % 2^8).testBit i = (decide (i < 8) && C.testBit i) :=
      Nat.testBit_mod_two_pow C 8 i
    rw [decide_eq_true hi8, Bool.true_and] at h1
    rw [show (2:Nat)^8 = 256 from by norm_num, hC] at h1
    rw [← h1]
    exact hbit
  have hBbit : (sext8_32 hi * 256 % 4294967296).testBit (8 + i) = true := by
    rw [Nat.testBit_to_div_mod, hB]
    have hdiv : 256 * C / 2 ^ (8 + i) = C / 2 ^ i := by
      rw [pow_add, show (2:Nat)^8 = 256 from by norm_num]
      exact Nat.mul_div_mul_left C (2 ^ i) (by norm_num)
    rw [hdiv]
    rw [Nat.testBit_to_div_mod] at hCbit
    exact hCbit
  have hDbit : (decodeUnit lo hi).testBit (8 + i) = true := by
    unfold decodeUnit
    rw [show (65536:Nat) = 2^16 from by norm_num, Nat.testBit_mod_two_pow]
    rw [decide_eq_true (by omega : 8 + i < 16), Bool.true_and, Nat.testBit_or, hBbit,
      Bool.or_true]
  calc (256 : Nat) = 2 ^ 8 := by norm_num
  _ ≤ 2 ^ (8 + i) := Nat.pow_le_pow_right (by norm_num) (by omega)
  _ ≤ decodeUnit lo hi := Nat.testBit_implies_ge hDbit

lemma decodeUnit_spec (lo hi : Nat) (hlo : lo < 256) (hhi : hi < 256) :
    ((decodeUnit lo hi < 128) ↔ (lo < 128 ∧ hi = 0)) ∧
    ((decodeUnit lo hi = 0) ↔ (lo = 0 ∧ hi = 0)) ∧
    ((lo < 128 ∧ hi = 0) → decodeUnit lo hi = lo) := by
  by_cases hz : hi = 0
  · subst hz
    have hd := decodeUnit_hi_zero lo hlo
    by_cases h : lo < 128
    · rw [if_pos h] at hd
      exact ⟨by omega, by omega, by omega⟩
    · rw [if_neg h] at hd
      exact ⟨by omega, by omega, by omega⟩
  · have h256 := decodeUnit_ge_256 lo hi hhi hz
    exact ⟨by omega, by omega, by omega⟩

def utf16LEUnits : List Nat → List Nat
  | lo :: hi :: rest => (lo + 256 * hi) :: utf16LEUnits rest
  | _ => []

lemma utf16Loop_spec : ∀ (bytes : List Nat), (∀ b ∈ bytes, b < 256) →
    utf16Loop (utf16Units bytes) =
      (if ((utf16LEUnits bytes).takeWhile (fun u => u ≠ 0)).all (fun u => u < 128)
       then Except.ok (((utf16LEUnits bytes).takeWhile (fun u => u ≠ 0)).map
         (fun u => Char.ofNat (if u = 92 then 47 else u)))
       else Except.error (-34)) := by
  intro bytes hb
  induction bytes using utf16Units.induct with
  | case1 lo hi rest ih =>
      have hlo : lo < 256 := hb lo (by simp)
      have hhi : hi < 256 := hb hi (by simp)
      obtain ⟨hiff1, hiff2, hval⟩ := decodeUnit_spec lo hi hlo hhi
      have ihr := ih (fun b hbm => hb b (by simp [hbm]))
      by_cases hu0 : lo + 256 * hi = 0
      · have hd0 : decodeUnit lo hi = 0 := hiff2.mpr (by omega)
        have htw : (utf16LEUnits (lo :: hi :: rest)).takeWhile (fun u => u ≠ 0) = [] := by
          simp [utf16LEUnits, hu0]
        rw [htw]
        simp [utf16Units, utf16Loop, hd0]
      · have hd0 : decodeUnit lo hi ≠ 0 := fun h => hu0 (by have := hiff2.mp h; omega)
        have htw : (utf16LEUnits (lo :: hi :: rest)).takeWhile (fun u => u ≠ 0) =
            (lo + 256 * hi) :: (utf16LEUnits rest).takeWhile (fun u => u ≠ 0) := by
          simp [utf16LEUnits, hu0]
        rw [htw]
        by_cases hu128 : lo + 256 * hi < 128
        · have hdval : decodeUnit lo hi = lo + 256 * hi := by
            have := hval ⟨by omega, by omega⟩
            omega
          have hloop : utf16Loop (utf16Units (lo :: hi :: rest)) =
              match utf16Loop (utf16Units rest) with
              | .ok cs =>
                  .ok (Char.ofNat (if lo + 256 * hi = 92 then 47 else lo + 256 * hi) :: cs)
              | .error e => .error e := by
            simp only [utf16Units, utf16Loop, if_neg hd0, hdval, if_neg hu0,
              if_pos (show lo + 256 * hi < 128 by omega)]
          rw [hloop, ihr]
          simp only [List.all_cons, decide_eq_true hu128, Bool.true_and, List.map_cons]
          by_cases hall : (((utf16LEUnits rest).takeWhile (fun u => u ≠ 0)).all
              (fun u => u < 128)) = true
          · simp only [if_pos hall]
          · simp only [if_neg hall]
        · have hd128 : ¬ decodeUnit lo hi < 128 := fun h => hu128 (by have := hiff1.mp h; omega)
          have hloop : utf16Loop (utf16Units (lo :: hi :: rest)) = Except.error (-34) := by
            simp only [utf16Units, utf16Loop, if_neg hd0, if_neg hd128]
          rw [hloop]
          have hcond : ¬ ((((lo + 256 * hi) ::
              (utf16LEUnits rest).takeWhile (fun u => u ≠ 0)).all (fun u => u < 128)) = true) := by
            simp [hu128]
          rw [if_neg hcond]
  | case2 bytes h =>
      rcases bytes with _ | ⟨b, _ | ⟨c, rest⟩⟩
      · simp [utf16Units, utf16LEUnits, utf16Loop]
      · simp [utf16Units, utf16LEUnits, utf16Loop]
      · exact absurd rfl (fun hh => h b c rest hh)

def utf16Encode : List Nat → List Nat
  | [] => []
  | c :: t => c :: 0 :: utf16Encode t

lemma utf16Encode_units (cs : List Nat) : utf16LEUnits (utf16Encode cs) = cs := by
  induction cs with
  | nil => rfl
  | cons c t ih => simp [utf16Encode, utf16LEUnits, ih]

lemma utf16Encode_len (cs : List Nat) : (utf16Encode cs).length % 2 = 0 := by
  induction cs with
  | nil => rfl
  | cons c t ih => simp [utf16Encode, Nat.add_mod, ih]

lemma takeWhile_ne_zero_eq (l : List Nat) (h : ∀ x ∈ l, x ≠ 0) :
    l.takeWhile (fun u => u ≠ 0) = l := by
  induction l with
  | nil => rfl
  | cons a t ih =>
      rw [List.takeWhile_cons, if_pos (by simpa using h a (by simp))]
      rw [ih (fun x hx => h x (by simp [hx]))]

/-- C6: for every byte payload, `utf16_to_utf8` errors on an odd length
(`-EINVAL`) and on a decoded 16-bit little-endian code unit `≥ 128` before
the first NUL (`-ERANGE`); otherwise it returns the ASCII string of the
units up to the first NUL with `\\` replaced by `/`; in particular a
payload encoding ASCII characters round-trips with the `\\`→`/`
substitution. -/
theorem utf16_c6 (bytes : List Nat) (hb : ∀ b ∈ bytes, b < 256) :
    (bytes.length % 2 ≠ 0 → utf16_to_utf8 bytes = .error (-22)) ∧
    (bytes.length % 2 = 0 ∧
        ¬ (((utf16LEUnits bytes).takeWhile (fun u => u ≠ 0)).all (fun u => u < 128)) = true →
      utf16_to_utf8 bytes = .error (-34)) ∧
    (bytes.length % 2 = 0 ∧
        (((utf16LEUnits bytes).takeWhile (fun u => u ≠ 0)).all (fun u => u < 128)) = true →
      utf16_to_utf8 bytes = .ok ((((utf16LEUnits bytes).takeWhile (fun u => u ≠ 0)).map
        (fun u => Char.ofNat (if u = 92 then 47 else u))).asString)) ∧
    (∀ cs : List Nat, (∀ c ∈ cs, 0 < c ∧ c < 128) →
      utf16_to_utf8 (utf16Encode cs) =
        .ok ((cs.map (fun u => Char.ofNat (if u = 92 then 47 else u))).asString)) := by
  refine ⟨?_, ?_, ?_, ?_⟩
  · intro hodd
    simp [utf16_to_utf8, hodd]
  · rintro ⟨heven, hall⟩
    rw [utf16_to_utf8, if_neg (by omega), utf16Loop_spec bytes hb, if_neg hall]
  · rintro ⟨heven, hall⟩
    rw [utf16_to_utf8, if_neg (by omega), utf16Loop_spec bytes hb, if_pos hall]
  · intro cs hcs
    have hb2 : ∀ b ∈ utf16Encode cs, b < 256 := by
      intro b hbm
      induction cs with
      | nil => simp [utf16Encode] at hbm
      | cons c t ih =>
          simp only [utf16Encode, List.mem_cons] at hbm
          rcases hbm with h1 | h1 | h1
          · have := hcs c (by simp)
            omega
          · omega
          · exact ih (fun x hx => hcs x (by simp [hx])) h1
    have htw : (utf16LEUnits (utf16Encode cs)).takeWhile (fun u => u ≠ 0) = cs := by
      rw [utf16Encode_units]
      exact takeWhile_ne_zero_eq cs (fun x hx => by have := hcs x hx; omega)
    have hall : (((utf16LEUnits (utf16Encode cs)).takeWhile (fun u => u ≠ 0)).all
        (fun u => u < 128)) = true := by
      rw [htw]
      exact List.all_eq_true.mpr (fun x hx => by
        have := hcs x hx
        exact decide_eq_true (by omega))
    rw [utf16_to_utf8, if_neg (by rw [utf16Encode_len cs]; omega),
      utf16Loop_spec _ hb2, if_pos hall, htw]

/-- Witness for C6: the payload for `h\` decodes to `h/`. -/
theorem utf16_c6_witness :
    (∀ b ∈ ([104, 0, 92, 0] : List Nat), b < 256) ∧
    utf16_to_utf8 [104, 0, 92, 0] = .ok "h/" :=
  ⟨by decide, by
    have h := (utf16_c6 [104, 0, 92, 0] (by decide)).2.2.1 ⟨by decide, by decide⟩
    exact h.trans (by rfl)⟩

/-! ## Claim C3: merge of ip= with rd.route= (route section order) -/

/-- The run of spec scenario 5 / test tst-multiple-networkd-1. -/
def c3run : PRes MainState :=
  runNetworkdArgs "/run/systemd/network" true
    ["ip=192.168.0.10:192.168.0.2:192.168.0.1:255.255.255.0:hogehoge:eth0:on:10.10.10.10:10.10.10.11",
     "rd.route=10.1.2.3/16:10.0.2.3"]

def c3files : List (String × List String) :=
  match c3run with
  | .ok st => st.files
  | _ => []

def c3netlines : List String :=
  Option.getD (fsFind c3files "/run/systemd/network/66-ip-01.network") []

/-- The bodies of the `[Route]` sections of a `.network` file, in order
(each section extends to the next blank line). -/
def routeSections : List String → List (List String)
  | [] => []
  | l :: rest =>
      if l = "[Route]" then
        rest.takeWhile (fun x => x ≠ "") :: routeSections rest
      else routeSections rest

/-- C3, counterexample: the emitted file does NOT have a first `[Route]`
section with only `Gateway=192.168.0.1` and a second one with the
`rd.route` data, as the claim states. -/
theorem c3_route_order_counterexample :
    ¬ (routeSections c3netlines =
        [["Gateway=192.168.0.1"], ["Destination=10.1.2.3/16", "Gateway=10.0.2.3"]]) := by
  decide

/-- C3, amended: the single emitted `.network` file has a first `[Route]`
section holding `Destination=10.1.2.3/16` and `Gateway=10.0.2.3` (the
`rd.route` gateway replaces the `ip=` gateway as primary) and a second
`[Route]` section with only `Gateway=192.168.0.1`. -/
theorem c3_route_order :
    c3files.map Prod.fst = ["/run/systemd/network/66-ip-01.network"] ∧
    routeSections c3netlines =
      [["Destination=10.1.2.3/16", "Gateway=10.0.2.3"], ["Gateway=192.168.0.1"]] := by
  decide

/-! ## Claim C7: unknown autoconf value -/

def c7lines : List String :=
  match runNetworkdArgs "/run/systemd/network" true ["ip=hogehoge"] with
  | .ok st => Option.getD (fsFind st.files "/run/systemd/network/66-ip-01.network") []
  | _ => []

/-- C7: for the unknown autoconf value `hogehoge` the mapper returns NULL
after printing its warning, yet the emitted file still contains a `DHCP=`
line — `fprintf(fp, "DHCP=%s\n", NULL)` renders as `DHCP=(null)` under
glibc (undefined behaviour by the C standard).  The spec says the record is
emitted *without* a DHCP line; the code contradicts it. -/
theorem c7_unknown_autoconf_dhcp_line :
    map_dracut_to_networkd (some "hogehoge") = none ∧
    ("DHCP=(null)" ∈ c7lines) ∧
    (c7lines.filter (fun l => cStartsWith l "DHCP=")).length = 1 := by
  decide

/-! ## Claim C8: device-path walk bounds -/

/-- C8: with a blob of declared limit 1 (memory holding the byte 1
everywhere), `parse_device_path` reads the node header bytes at offsets
1, 2 and 3 — all beyond the declared limit.  The `while (offset < limit)`
guard admits a header read even when fewer than 4 bytes remain, so the
code does access bytes at offsets `≥ limit`, contradicting the claim. -/
theorem c8_header_read_past_limit :
    (parse_device_path (fun _ => 1) 1).fst = [0, 1, 2, 3] := by
  decide


/-! ## Claims C9, C10, C5, C1, C2 -/

/-- Helper: a successful `dpFinish` never returns an all-empty, non-PXE
record. -/
lemma dpFinish_ok (s : DPState) (acc accR : List Nat) (r : efivars_t)
    (h : dpFinish s acc = (accR, .ok r)) :
    ¬ (cIsEmpty r.url = true ∧ cIsEmpty r.device = true ∧ cIsEmpty r.image = true ∧
        r.is_pxe_boot = false) := by
  unfold dpFinish at h
  split at h
  · have h2 := congrArg Prod.snd h
    simp at h2
  · rename_i hcond
    have h2 := congrArg Prod.snd h
    simp only [] at h2
    injection h2 with h2
    subst h2
    rintro ⟨h1, h2, h3, h4⟩
    have e1 : cIsEmpty s.url = true := h1
    have e2 : cIsEmpty s.dev = true := h2
    have e3 : cIsEmpty s.img = true := h3
    have e4 : s.pxe = false := h4
    exact hcond (by rw [e1, e2, e3, e4]; rfl)

/-- Helper: an early (`inr`) return of a device-path node body is always an
error. -/
lemma dpNodeStep_inr (mem : Nat → Nat) (offset : Nat) (s : DPState) (acc1 : List Nat)
    (ty sub len : Nat) (accR : List Nat) (res : Except Int efivars_t)
    (h : dpNodeStep mem offset s acc1 ty sub len = .inr (accR, res)) :
    ∃ e, res = .error e := by
  unfold dpNodeStep at h
  repeat' (first | split at h | simp only [] at h)
  all_goals try exact Sum.noConfusion h
  all_goals injection h with h
  all_goals injection h with h1 h2
  all_goals exact ⟨_, h2.symm⟩

/-- Helper: a successful device-path walk never returns an all-empty,
non-PXE record. -/
lemma parseDPLoop_ok (mem : Nat → Nat) (limit : Nat) :
    ∀ (fuel offset : Nat) (s : DPState) (acc accR : List Nat) (r : efivars_t),
    parseDPLoop mem limit fuel offset s acc = (accR, .ok r) →
    ¬ (cIsEmpty r.url = true ∧ cIsEmpty r.device = true ∧ cIsEmpty r.image = true ∧
        r.is_pxe_boot = false) := by
  intro fuel
  induction fuel with
  | zero =>
      intro offset s acc accR r h
      rw [parseDPLoop] at h
      exact dpFinish_ok s acc accR r h
  | succ fuel ih =>
      intro offset s acc accR r h
      rw [parseDPLoop] at h
      repeat' (first | split at h | simp only [] at h)
      all_goals first
        | exact dpFinish_ok _ _ _ _ h
        | exact ih _ _ _ _ _ h
        | (rename_i heq
           rw [h] at heq
           obtain ⟨e, he⟩ := dpNodeStep_inr _ _ _ _ _ _ _ _ _ heq
           exact Except.noConfusion he)

deriving instance DecidableEq for Except

def c9store : String → Option (List Nat) := fun name =>
  if name = "LoaderDeviceURL" then
    some [7, 0, 0, 0, 104, 0, 116, 0, 116, 0, 112, 0, 58, 0, 47, 0, 47, 0, 120, 0]
  else if name = "LoaderDevicePartUUID" then some [7, 0, 0, 0, 65, 0, 66, 0]
  else none

def bootFieldsSet (r : efivars_t) : Nat :=
  (if cIsEmpty r.url then 0 else 1) + (if cIsEmpty r.device then 0 else 1) +
  (if cIsEmpty r.image then 0 else 1)

def c9rec : efivars_t :=
  {url := some "http://x", device := some "/dev/disk/by-partuuid/ab"}

/-- C9, counterexample: a store where both `LoaderDeviceURL` and
`LoaderDevicePartUUID` decode successfully yields a record with TWO of the
fields url/device/image non-empty — refuting "at most one". -/
theorem c9_counterexample :
    efi_boot_systemd_stub c9store 1000000 = .ok c9rec ∧ 2 ≤ bootFieldsSet c9rec := by
  constructor
  · decide
  · decide

/-- Helper: any record returned by `efi_boot_systemd_stub` has at least one
of url/device/image non-empty. -/
lemma efi_stub_ok (store : String → Option (List Nat)) (M : Nat) (r : efivars_t)
    (h : efi_boot_systemd_stub store M = .ok r) :
    ¬ (cIsEmpty r.url = true ∧ cIsEmpty r.device = true ∧ cIsEmpty r.image = true) := by
  unfold efi_boot_systemd_stub at h
  repeat' (first | split at h | simp only [] at h)
  all_goals try exact Except.noConfusion h
  all_goals injection h with h
  all_goals subst h
  all_goals rename_i hcond
  all_goals rintro ⟨h1, h2, h3⟩
  all_goals simp at h1 h2 h3
  all_goals exact hcond (by simp [h1, h2, h3])

/-- C9, amended: the resolver guarantees at LEAST one (not at most one) of
url, device, image is set: `efi_boot_systemd_stub` never returns a record
with all three empty, and the `parse_device_path` walk never returns a
record with all three empty unless it is a PXE boot. -/
theorem c9_boot_source_nonempty :
    (∀ (store : String → Option (List Nat)) (M : Nat) (r : efivars_t),
        efi_boot_systemd_stub store M = .ok r →
        ¬ (cIsEmpty r.url = true ∧ cIsEmpty r.device = true ∧ cIsEmpty r.image = true)) ∧
    (∀ (mem : Nat → Nat) (limit fuel offset : Nat) (s : DPState) (acc accR : List Nat)
        (r : efivars_t),
        parseDPLoop mem limit fuel offset s acc = (accR, .ok r) →
        ¬ (cIsEmpty r.url = true ∧ cIsEmpty r.device = true ∧ cIsEmpty r.image = true ∧
            r.is_pxe_boot = false)) :=
  ⟨efi_stub_ok, fun mem limit fuel offset s acc accR r h =>
    parseDPLoop_ok mem limit fuel offset s acc accR r h⟩

/-- C9, witness: a concrete store exercising both conjuncts. -/
theorem c9_witness :
    efi_boot_systemd_stub c9store 1000000 = .ok c9rec ∧
    ¬ (cIsEmpty c9rec.url = true ∧ cIsEmpty c9rec.device = true ∧
        cIsEmpty c9rec.image = true) ∧
    parseDPLoop (fun _ => 0) 0 0 0 {pxe := true} [] =
      ([], .ok {is_pxe_boot := true}) ∧
    ¬ (cIsEmpty (efivars_t.mk none none none none none true).url = true ∧
        cIsEmpty (efivars_t.mk none none none none none true).device = true ∧
        cIsEmpty (efivars_t.mk none none none none none true).image = true ∧
        (efivars_t.mk none none none none none true).is_pxe_boot = false) :=
  ⟨by decide, c9_boot_source_nonempty.1 c9store 1000000 c9rec (by decide),
   by decide, c9_boot_source_nonempty.2 (fun _ => 0) 0 0 0 {pxe := true} [] []
      {is_pxe_boot := true} (by decide)⟩

/-- Registering a list of vlan names in sequence (the `vlan_ids` table). -/
def c5register (names : List String) (t : List (Nat × String)) : List (Nat × String) :=
  names.foldl (fun acc n => (get_vlan_id acc n).fst) t

/-- C5, counterexample: after only NINE registered vlans (not ten as the
claim says) the next new id is rejected with `-ENOMEM` — the
`(nr_vlanids + 1) == 10` guard fires one entry early. -/
theorem c5_counterexample :
    (c5register ["vlan1", "vlan2", "vlan3", "vlan4", "vlan5", "vlan6", "vlan7", "vlan8",
      "vlan9"] []).length = 9 ∧
    (get_vlan_id (c5register ["vlan1", "vlan2", "vlan3", "vlan4", "vlan5", "vlan6", "vlan7",
      "vlan8", "vlan9"] []) "vlan10").snd = .err (-12) := by
  decide

/-- C5, amended: a fresh vlan id is appended while fewer than nine entries
exist; the NINTH-full table rejects a fresh id with `-ENOMEM` (the claim
said ten); a repeated id is returned without consuming capacity. -/
theorem c5_vlan_capacity :
    (∀ (vlans : List (Nat × String)) (name : String) (vid : Nat),
        extractVlanId name = some vid → vid ∉ vlans.map Prod.fst → vlans.length < 9 →
        get_vlan_id vlans name = (vlans ++ [(vid, name)], .ok vid)) ∧
    (∀ (vlans : List (Nat × String)) (name : String) (vid : Nat),
        extractVlanId name = some vid → vid ∉ vlans.map Prod.fst → vlans.length = 9 →
        get_vlan_id vlans name = (vlans, .err (-12))) ∧
    (∀ (vlans : List (Nat × String)) (name : String) (vid : Nat),
        extractVlanId name = some vid → vid ∈ vlans.map Prod.fst →
        get_vlan_id vlans name = (vlans, .ok vid)) := by
  refine ⟨?_, ?_, ?_⟩
  · intro vlans name vid he hnin hlen
    simp only [get_vlan_id, he]
    rw [if_neg hnin, if_neg (by omega)]
  · intro vlans name vid he hnin hlen
    simp only [get_vlan_id, he]
    rw [if_neg hnin, if_pos (by omega)]
  · intro vlans name vid he hin
    simp only [get_vlan_id, he]
    rw [if_pos hin]

/-- C5, witness: concrete instantiations of all used conjuncts. -/
theorem c5_witness :
    (extractVlanId "vlan5" = some 5 ∧ (5 ∉ ([] : List (Nat × String)).map Prod.fst) ∧
      ([] : List (Nat × String)).length < 9 ∧
      get_vlan_id [] "vlan5" = ([(5, "vlan5")], .ok 5)) ∧
    (extractVlanId "vlan10" = some 10 ∧
      get_vlan_id [(1, "vlan1"), (2, "vlan2"), (3, "vlan3"), (4, "vlan4"), (5, "vlan5"),
        (6, "vlan6"), (7, "vlan7"), (8, "vlan8"), (9, "vlan9")] "vlan10" =
        ([(1, "vlan1"), (2, "vlan2"), (3, "vlan3"), (4, "vlan4"), (5, "vlan5"),
          (6, "vlan6"), (7, "vlan7"), (8, "vlan8"), (9, "vlan9")], .err (-12))) :=
  ⟨⟨by decide, by decide, by decide,
      c5_vlan_capacity.1 [] "vlan5" 5 (by decide) (by decide) (by decide)⟩,
   ⟨by decide,
      c5_vlan_capacity.2.1 _ "vlan10" 10 (by decide) (by decide) (by decide)⟩⟩

/-- C10: reading an EFI variable whose file is shorter than the 4-byte
attribute header never succeeds.  `size = size - 4` underflows the
`size_t`, the subsequent `malloc` of the wrapped (astronomically large)
size fails, and the call returns `-ENOMEM` — provided the malloc budget
`M` is below the wrapped size, which holds for every real machine. -/
theorem c10_short_var_fails (store : String → Option (List Nat)) (name : String)
    (contents : List Nat) (M : Nat) (hs : store name = some contents)
    (hlen : contents.length < 4) (hM : M < 18446744073709551612) :
    read_efi_var store M name = .error (-12) := by
  simp only [read_efi_var, hs]
  split_ifs with h1 h2
  · rfl
  · rfl
  · exfalso
    omega

/-- C10, witness: a 3-byte variable is rejected. -/
theorem c10_witness :
    ((fun _ => some [1, 2, 3]) "Boot0001" = some ([1, 2, 3] : List Nat)) ∧
    ([1, 2, 3] : List Nat).length < 4 ∧ (1000000 : Nat) < 18446744073709551612 ∧
    read_efi_var (fun _ => some [1, 2, 3]) 1000000 "Boot0001" = .error (-12) :=
  ⟨rfl, by decide, by decide,
    c10_short_var_fails (fun _ => some [1, 2, 3]) "Boot0001" [1, 2, 3] 1000000 rfl
      (by decide) (by decide)⟩

/-- C1, counterexample: on the kernel command line a bad `rd.peerdns=`
token ABORTS the run with `-r` (EINVAL), so the following `nameserver=`
token is never processed — refuting "skipped with a diagnostic". -/
theorem c1_counterexample :
    runNetworkdArgs "/run/systemd/network" true ["rd.peerdns=2", "nameserver=8.8.8.8"] =
      .err 22 := by
  decide

/-- C1, amended: on the kernel command line only a failing `ifcfg=` token
(other than out-of-memory) is skipped; a negative sub-parser return from
any of the other directives — `ip=`, `nameserver=`, `rd.peerdns=`,
`rd.route=`, `vlan=` — aborts the run with the negated code, and an
out-of-memory return from `ifcfg=` handling aborts with status 12. -/
theorem c1_cmdline_error_aborts :
    (∀ (outdir line : String) (st : MainState) (nr : Nat) (tok : String)
        (rest : List String) (e : Int),
        cStartsWith tok "ifcfg=" = false → cStartsWith tok "ip=" = true →
        parse_ip_arg (cDrop 3 tok) = .err e →
        cmdStepList outdir true line st nr (tok :: rest) = .err (-e)) ∧
    (∀ (outdir line : String) (st : MainState) (nr : Nat) (tok : String)
        (rest : List String) (e : Int),
        cStartsWith tok "ifcfg=" = false → cStartsWith tok "ip=" = false →
        cStartsWith tok "nameserver=" = true →
        parse_nameserver_arg (cDrop 11 tok) = .err e →
        cmdStepList outdir true line st nr (tok :: rest) = .err (-e)) ∧
    (∀ (outdir line : String) (st : MainState) (nr : Nat) (tok : String)
        (rest : List String) (e : Int),
        cStartsWith tok "ifcfg=" = false → cStartsWith tok "ip=" = false →
        cStartsWith tok "nameserver=" = false → cStartsWith tok "rd.peerdns=" = true →
        parse_rd_peerdns_arg (cDrop 11 tok) = .err e →
        cmdStepList outdir true line st nr (tok :: rest) = .err (-e)) ∧
    (∀ (outdir line : String) (st : MainState) (nr : Nat) (tok : String)
        (rest : List String) (e : Int),
        cStartsWith tok "ifcfg=" = false → cStartsWith tok "ip=" = false →
        cStartsWith tok "nameserver=" = false → cStartsWith tok "rd.peerdns=" = false →
        cStartsWith tok "rd.route=" = true →
        parse_rd_route_arg (cDrop 9 tok) = .err e →
        cmdStepList outdir true line st nr (tok :: rest) = .err (-e)) ∧
    (∀ (outdir line : String) (st : MainState) (nr : Nat) (tok : String)
        (rest : List String) (vl2 : List (Nat × String)) (e : Int),
        cStartsWith tok "ifcfg=" = false → cStartsWith tok "ip=" = false →
        cStartsWith tok "nameserver=" = false → cStartsWith tok "rd.peerdns=" = false →
        cStartsWith tok "rd.route=" = false → cStartsWith line "vlan=" = true →
        parse_vlan_arg st.vlans (cDrop 5 tok) = (vl2, .err e) →
        cmdStepList outdir true line st nr (tok :: rest) = .err (-e)) ∧
    (∀ (outdir line : String) (st : MainState) (nr : Nat) (tok : String)
        (rest : List String) (iv : List Nat) (fs : List (String × List String)),
        cStartsWith tok "ifcfg=" = true →
        parse_ifcfg_arg outdir st.ifcfgVlans st.files nr
          (stripIfcfgQuotes (cDrop 6 tok)) = ((iv, fs), .err (-12)) →
        cmdStepList outdir true line st nr (tok :: rest) = .err 12) ∧
    (∀ (outdir line : String) (st : MainState) (nr : Nat) (tok : String)
        (rest : List String) (iv : List Nat) (fs : List (String × List String)) (e : Int),
        cStartsWith tok "ifcfg=" = true →
        parse_ifcfg_arg outdir st.ifcfgVlans st.files nr
          (stripIfcfgQuotes (cDrop 6 tok)) = ((iv, fs), .err e) →
        e ≠ -12 →
        cmdStepList outdir true line st nr (tok :: rest) =
          cmdStepList outdir true line {st with ifcfgVlans := iv, files := fs}
            (nr + 1) rest) := by
  refine ⟨?_, ?_, ?_, ?_, ?_, ?_, ?_⟩
  · intro outdir line st nr tok rest e h1 h2 h3
    simp [cmdStepList, h1, h2, h3]
  · intro outdir line st nr tok rest e h1 h2 h3 h4
    simp [cmdStepList, h1, h2, h3, h4]
  · intro outdir line st nr tok rest e h1 h2 h3 h4 h5
    simp [cmdStepList, h1, h2, h3, h4, h5]
  · intro outdir line st nr tok rest e h1 h2 h3 h4 h5 h6
    simp [cmdStepList, h1, h2, h3, h4, h5, h6]
  · intro outdir line st nr tok rest vl2 e h1 h2 h3 h4 h5 h6 h7
    simp [cmdStepList, h1, h2, h3, h4, h5, h6, h7]
  · intro outdir line st nr tok rest iv fs h1 h2
    simp [cmdStepList, h1, h2]
  · intro outdir line st nr tok rest iv fs e h1 h2 h3
    simp [cmdStepList, h1, h2, h3]

/-- C1, witness: all seven conjuncts at concrete tokens — a failing `ip=`,
`nameserver=`, `rd.peerdns=`, `rd.route=` and `vlan=` each abort with the
negated code, an `ifcfg=` vlan-table overflow aborts with status 12, and
any other `ifcfg=` failure is skipped. -/
theorem c1_witness :
    (cStartsWith "ip=1.2.3.999:::::" "ifcfg=" = false ∧
      cStartsWith "ip=1.2.3.999:::::" "ip=" = true ∧
      parse_ip_arg (cDrop 3 "ip=1.2.3.999:::::") = .err (-22) ∧
      cmdStepList "/run/systemd/network" true "ip=1.2.3.999:::::" {} 0
        ["ip=1.2.3.999:::::"] = .err (-(-22))) ∧
    (cStartsWith "nameserver=notanip" "ifcfg=" = false ∧
      cStartsWith "nameserver=notanip" "ip=" = false ∧
      cStartsWith "nameserver=notanip" "nameserver=" = true ∧
      parse_nameserver_arg (cDrop 11 "nameserver=notanip") = .err (-22) ∧
      cmdStepList "/run/systemd/network" true "nameserver=notanip" {} 0
        ["nameserver=notanip"] = .err (-(-22))) ∧
    (cStartsWith "rd.peerdns=2" "ifcfg=" = false ∧
      cStartsWith "rd.peerdns=2" "ip=" = false ∧
      cStartsWith "rd.peerdns=2" "nameserver=" = false ∧
      cStartsWith "rd.peerdns=2" "rd.peerdns=" = true ∧
      parse_rd_peerdns_arg (cDrop 11 "rd.peerdns=2") = .err (-22) ∧
      cmdStepList "/run/systemd/network" true "rd.peerdns=2" {} 0 ["rd.peerdns=2"] =
        .err (-(-22))) ∧
    (cStartsWith "rd.route=1.2.3.4/16:notanip" "rd.route=" = true ∧
      parse_rd_route_arg (cDrop 9 "rd.route=1.2.3.4/16:notanip") = .err (-22) ∧
      cmdStepList "/run/systemd/network" true "rd.route=1.2.3.4/16:notanip" {} 0
        ["rd.route=1.2.3.4/16:notanip"] = .err (-(-22))) ∧
    (cStartsWith "vlan=foo" "vlan=" = true ∧
      parse_vlan_arg (MainState.mk [] [] [] []).vlans (cDrop 5 "vlan=foo") =
        ([], .err (-22)) ∧
      cmdStepList "/run/systemd/network" true "vlan=foo" (MainState.mk [] [] [] []) 0
        ["vlan=foo"] = .err (-(-22))) ∧
    (cStartsWith "ifcfg=eth0.10=1.2.3.4" "ifcfg=" = true ∧
      parse_ifcfg_arg "/run/systemd/network"
        (MainState.mk [] [] [1, 2, 3, 4, 5, 6, 7, 8, 9] []).ifcfgVlans
        (MainState.mk [] [] [1, 2, 3, 4, 5, 6, 7, 8, 9] []).files 0
        (stripIfcfgQuotes (cDrop 6 "ifcfg=eth0.10=1.2.3.4")) =
        (([1, 2, 3, 4, 5, 6, 7, 8, 9], []), .err (-12)) ∧
      cmdStepList "/run/systemd/network" true "ifcfg=eth0.10=1.2.3.4"
        (MainState.mk [] [] [1, 2, 3, 4, 5, 6, 7, 8, 9] []) 0
        ["ifcfg=eth0.10=1.2.3.4"] = .err 12) ∧
    (cStartsWith "ifcfg=x" "ifcfg=" = true ∧
      parse_ifcfg_arg "/run/systemd/network" (MainState.mk [] [] [] []).ifcfgVlans
        (MainState.mk [] [] [] []).files 0 (stripIfcfgQuotes (cDrop 6 "ifcfg=x")) =
        (([], []), .err (-2)) ∧
      cmdStepList "/run/systemd/network" true "ifcfg=x" (MainState.mk [] [] [] []) 0
          ["ifcfg=x"] =
        cmdStepList "/run/systemd/network" true "ifcfg=x" (MainState.mk [] [] [] []) 1
          []) :=
  ⟨⟨by decide, by decide, by decide,
      c1_cmdline_error_aborts.1 "/run/systemd/network" "ip=1.2.3.999:::::" {} 0
        "ip=1.2.3.999:::::" [] (-22) (by decide) (by decide) (by decide)⟩,
   ⟨by decide, by decide, by decide, by decide,
      c1_cmdline_error_aborts.2.1 "/run/systemd/network" "nameserver=notanip" {} 0
        "nameserver=notanip" [] (-22) (by decide) (by decide) (by decide) (by decide)⟩,
   ⟨by decide, by decide, by decide, by decide, by decide,
      c1_cmdline_error_aborts.2.2.1 "/run/systemd/network" "rd.peerdns=2" {} 0
        "rd.peerdns=2" [] (-22) (by decide) (by decide) (by decide) (by decide)
        (by decide)⟩,
   ⟨by decide, by decide,
      c1_cmdline_error_aborts.2.2.2.1 "/run/systemd/network" "rd.route=1.2.3.4/16:notanip"
        {} 0 "rd.route=1.2.3.4/16:notanip" [] (-22) (by decide) (by decide) (by decide)
        (by decide) (by decide) (by decide)⟩,
   ⟨by decide, by decide,
      c1_cmdline_error_aborts.2.2.2.2.1 "/run/systemd/network" "vlan=foo"
        (MainState.mk [] [] [] []) 0 "vlan=foo" [] [] (-22) (by decide) (by decide)
        (by decide) (by decide) (by decide) (by decide) (by decide)⟩,
   ⟨by decide, by decide,
      c1_cmdline_error_aborts.2.2.2.2.2.1 "/run/systemd/network" "ifcfg=eth0.10=1.2.3.4"
        (MainState.mk [] [] [1, 2, 3, 4, 5, 6, 7, 8, 9] []) 0 "ifcfg=eth0.10=1.2.3.4" []
        [1, 2, 3, 4, 5, 6, 7, 8, 9] [] (by decide) (by decide)⟩,
   ⟨by decide, by decide,
      c1_cmdline_error_aborts.2.2.2.2.2.2 "/run/systemd/network" "ifcfg=x"
        (MainState.mk [] [] [] []) 0 "ifcfg=x" [] [] [] (-2) (by decide) (by decide)
        (by decide)⟩⟩

/-- C2, counterexample: the retained line `foo=bar` has no recognized
prefix yet the file-mode run SUCCEEDS (the `r = 255` path ignores it) —
refuting "hard syntax error". -/
theorem c2_counterexample :
    runNetworkdFile "/run/systemd/network" ["foo=bar\n"] = .ok {} := by
  decide

/-- C2, amended: a retained line with an unrecognized prefix is silently
skipped in file mode (the loop continues on the remaining lines with the
state unchanged). -/
theorem c2_unknown_prefix_ignored :
    ∀ (outdir : String) (st : MainState) (lc : Nat) (rawLine : String)
      (rest : List String),
      rawLine ≠ "" → cStartsWith rawLine "#" = false → cStartsWith rawLine "\n" = false →
      cStartsWith (stripNl rawLine) "ip=" = false →
      cStartsWith (stripNl rawLine) "nameserver=" = false →
      cStartsWith (stripNl rawLine) "rd.peerdns=" = false →
      cStartsWith (stripNl rawLine) "rd.route=" = false →
      cStartsWith (stripNl rawLine) "vlan=" = false →
      cStartsWith (stripNl rawLine) "ifcfg=" = false →
      fileStepList outdir st lc (rawLine :: rest) = fileStepList outdir st (lc + 1) rest := by
  intro outdir st lc rawLine rest h1 h2 h3 h4 h5 h6 h7 h8 h9
  simp [fileStepList, h1, h2, h3, h4, h5, h6, h7, h8, h9]

/-- C2, witness: the line `foo=bar` is skipped. -/
theorem c2_witness :
    ("foo=bar\n" ≠ "") ∧ cStartsWith "foo=bar\n" "#" = false ∧
    cStartsWith "foo=bar\n" "\n" = false ∧
    cStartsWith (stripNl "foo=bar\n") "ip=" = false ∧
    cStartsWith (stripNl "foo=bar\n") "nameserver=" = false ∧
    cStartsWith (stripNl "foo=bar\n") "rd.peerdns=" = false ∧
    cStartsWith (stripNl "foo=bar\n") "rd.route=" = false ∧
    cStartsWith (stripNl "foo=bar\n") "vlan=" = false ∧
    cStartsWith (stripNl "foo=bar\n") "ifcfg=" = false ∧
    fileStepList "/run/systemd/network" {} 0 ["foo=bar\n"] =
      fileStepList "/run/systemd/network" {} 1 [] :=
  ⟨by decide, by decide, by decide, by decide, by decide, by decide, by decide,
   by decide, by decide,
   c2_unknown_prefix_ignored "/run/systemd/network" {} 0 "foo=bar\n" [] (by decide)
     (by decide) (by decide) (by decide) (by decide) (by decide) (by decide) (by decide)
     (by decide)⟩

end RdiInstaller
